import Mathlib

/-!
Verification of the PharmacyDebt ledger/balance subsystem.

This file gives a shallow embedding of the core of `src/database.py`
(ledger store, balance engine, entry lifecycle manager, donation applier)
and proves or refutes the specification claims about it.

Modelling conventions:
* SQLite REAL monetary amounts are modelled as exact rationals (`ℚ`);
  the claims under study are algebraic and do not concern float rounding.
* The database is a record of lists mirroring the tables used by the
  claims (`customers`, `ledger`, `ledger_items`, `donations`,
  `donation_usage`).  `AUTOINCREMENT` primary keys are modelled by a
  `next_…_id` counter; new rows are appended at the end of the list, so
  a reachable ledger list is strictly increasing in `id`
  (`LedgerSorted` below), and `ORDER BY id ASC` is list order.
* `entry_type` takes the five values the code ever inserts
  (`NEW_DEBT`, `PAYMENT`, `ADJUSTMENT`, `REFUND`, `WRITE_OFF`).  The
  schema also reserves the string `VOID`, but no code path inserts it
  ("VOID is reserved/unused as a type"), so reachable rows carry one of
  the five values modelled here.
* Wall-clock timestamps (`datetime.now()`) are passed in as an abstract
  `now : Nat` parameter; `TIMESTAMP` columns are `Option Nat`.
* Functions whose Python source raises (`ValueError`, FK
  `IntegrityError`) or returns a failure dict are modelled with
  `Except`: an `.error` result means the transaction rolled back and
  the database is unchanged.  Enforced `FOREIGN KEY` constraints
  (`PRAGMA foreign_keys = ON` in `get_db`) are modelled as explicit
  `.fkViolation` failures at insert time.
* The `users`, `audit_log` and `settings` tables play no role in any
  claim and are not modelled; `created_by` / `voided_by` are carried as
  plain `Option Nat`.
-/

/-- The five entry types that `database.py` ever inserts into `ledger`. -/
inductive EntryType
  | NEW_DEBT
  | PAYMENT
  | ADJUSTMENT
  | REFUND
  | WRITE_OFF
deriving DecidableEq

/-- A row of the `ledger` table. -/
structure LedgerEntry where
  id : Nat
  customer_id : Nat
  entry_type : EntryType
  amount : ℚ
  balance_after : ℚ
  rx_number : Option String := none
  description : Option String := none
  notes : Option String := none
  payment_method : Option String := none
  reference_id : Option Nat := none
  created_by : Option Nat := none
  created_at : Nat := 0
  is_voided : Bool := false
  voided_by : Option Nat := none
  voided_at : Option Nat := none
  void_reason : Option String := none
  is_deleted : Bool := false
  deleted_at : Option Nat := none
deriving DecidableEq

/-- A row of the `customers` table (the fields the core reads). -/
structure Customer where
  id : Nat
  name : String := ""
  credit_limit : ℚ := 500
  is_active : Bool := true
deriving DecidableEq

/-- A row of the `ledger_items` table. -/
structure LedgerItemRow where
  ledger_id : Nat
  product_name : String
  price : ℚ
  quantity : Int
  rx_number : Option String := none
deriving DecidableEq

/-- A row of the `donations` table. -/
structure Donation where
  id : Nat
  amount : ℚ
  donor_name : Option String := none
  notes : Option String := none
deriving DecidableEq

/-- A row of the `donation_usage` table. -/
structure DonationUsage where
  id : Nat
  donation_id : Nat
  customer_id : Nat
  amount_used : ℚ
  notes : Option String := none
deriving DecidableEq

/-- The database state: the tables the core operates on, plus the
`AUTOINCREMENT` counters for the two tables whose fresh ids matter. -/
structure DB where
  customers : List Customer
  ledger : List LedgerEntry
  ledger_items : List LedgerItemRow := []
  donations : List Donation := []
  donation_usage : List DonationUsage := []
  next_ledger_id : Nat := 1
  next_usage_id : Nat := 1
deriving DecidableEq

/-- An item dict passed to `add_debt` / `update_debt_entry`
(`product_name`, `price`, `quantity`, optional `rx_number`). -/
structure ItemInput where
  product_name : String
  price : ℚ
  quantity : Int := 1
  rx_number : Option String := none
deriving DecidableEq

/-- The errors the modelled operations can raise.  The Python code
raises `ValueError` with distinct messages (and sqlite raises
`IntegrityError` for foreign-key violations); each distinct failure
site gets its own constructor. -/
inductive DbError
  | notFound
  | inactiveCustomer
  | invalidAmount
  | emptyItems
  | creditBalance
  | noOutstandingBalance
  | exceedsDebt
  | fkViolation
deriving DecidableEq

/-- The signed contribution of one entry to the running balance: the
`CASE` expression — plus the amount for NEW_DEBT and ADJUSTMENT, minus
the amount for PAYMENT, WRITE_OFF and REFUND —
used throughout `database.py`. -/
def signedDelta (e : LedgerEntry) : ℚ :=
  match e.entry_type with
  | .NEW_DEBT => e.amount
  | .ADJUSTMENT => e.amount
  | .PAYMENT => -e.amount
  | .WRITE_OFF => -e.amount
  | .REFUND => -e.amount

/-- The same signed formula applied to a prospective amount of a given
type (used when the recalculation routine re-reads an edited entry). -/
def signedAs (t : EntryType) (a : ℚ) : ℚ :=
  match t with
  | .NEW_DEBT => a
  | .ADJUSTMENT => a
  | .PAYMENT => -a
  | .WRITE_OFF => -a
  | .REFUND => -a

/-- The `SUM` of the signed contributions of a list of rows. -/
def sumSigned (l : List LedgerEntry) : ℚ :=
  (l.map signedDelta).sum

/-- Embeds `SELECT * FROM customers WHERE id = ?` (`get_customer`). -/
def get_customer (db : DB) (customer_id : Nat) : Option Customer :=
  db.customers.find? (fun c => c.id == customer_id)

/-- Embeds `SELECT * FROM ledger WHERE id = ?`. -/
def findEntry (db : DB) (ledger_id : Nat) : Option LedgerEntry :=
  db.ledger.find? (fun e => e.id == ledger_id)

/-- Embeds `get_customer_balance` (src/database.py lines 355-370): signed sum
over ALL ledger rows of the customer, with no void/delete filter. -/
def get_customer_balance (db : DB) (customer_id : Nat) : ℚ :=
  sumSigned (db.ledger.filter (fun e => e.customer_id == customer_id))

/-- Reachable-state invariant: ledger rows are listed in strictly
increasing `id` order (ids are `AUTOINCREMENT` primary keys and rows
are only ever appended). -/
def LedgerSorted (db : DB) : Prop :=
  db.ledger.Pairwise (fun a b => a.id < b.id)

instance : DecidablePred LedgerSorted := fun db =>
  List.instDecidablePairwise db.ledger

/-! ### Appending entries (`add_debt`, `add_payment`, `add_adjustment`,
`add_refund`, `write_off_debt`) -/

/-- The per-item validation loop of `add_debt`: rejects a non-positive
price or quantity (`ValueError`), otherwise accumulates
`price * quantity`. -/
def computeItemsTotal : List ItemInput → Except DbError ℚ
  | [] => .ok 0
  | it :: rest =>
    if it.price ≤ 0 then .error .invalidAmount
    else if it.quantity ≤ 0 then .error .invalidAmount
    else
      match computeItemsTotal rest with
      | .error er => .error er
      | .ok t => .ok (it.price * (it.quantity : ℚ) + t)

/-- Build the `ledger_items` row inserted for one item of a debt. -/
def itemRow (ledger_id : Nat) (it : ItemInput) : LedgerItemRow :=
  { ledger_id := ledger_id, product_name := it.product_name, price := it.price,
    quantity := it.quantity, rx_number := it.rx_number }

/-- Embeds `add_debt` (src/database.py lines 372-425).  Validates the customer
(exists, active), requires a non-empty item list, validates each item's
price and quantity, then inserts a `NEW_DEBT` entry whose amount is the
item total and whose `balance_after` is the prior balance plus that
total, together with its `ledger_items` rows, in one transaction.
(`debt_date` only affects the textual `created_at`; time is abstracted
as `now`.) -/
def add_debt (db : DB) (customer_id : Nat) (items : List ItemInput)
    (rx_number description notes : Option String) (user_id : Option Nat)
    (now : Nat) : Except DbError (DB × Nat) :=
  match get_customer db customer_id with
  | none => .error .notFound
  | some customer =>
    if customer.is_active = false then .error .inactiveCustomer
    else if items.isEmpty then .error .emptyItems
    else
      match computeItemsTotal items with
      | .error er => .error er
      | .ok total =>
      let current_balance := get_customer_balance db customer_id
      let new_balance := current_balance + total
      let entry : LedgerEntry :=
        { id := db.next_ledger_id, customer_id := customer_id, entry_type := .NEW_DEBT,
          amount := total, balance_after := new_balance, rx_number := rx_number,
          description := description, notes := notes, created_by := user_id, created_at := now }
      let db' : DB :=
        { db with
          ledger := db.ledger ++ [entry],
          ledger_items := db.ledger_items ++ items.map (itemRow db.next_ledger_id),
          next_ledger_id := db.next_ledger_id + 1 }
      .ok (db', db.next_ledger_id)

/-- Embeds `add_payment` (src/database.py lines 427-464).  Validates the
customer, rejects non-positive amounts, rejects any payment when the
balance is negative (credit) or zero, rejects overpayment, then inserts
a `PAYMENT` entry with `balance_after` = balance − amount. -/
def add_payment (db : DB) (customer_id : Nat) (amount : ℚ)
    (payment_method : Option String) (notes : Option String)
    (user_id : Option Nat) (now : Nat) : Except DbError (DB × Nat) :=
  match get_customer db customer_id with
  | none => .error .notFound
  | some customer =>
    if customer.is_active = false then .error .inactiveCustomer
    else if amount ≤ 0 then .error .invalidAmount
    else
      let current_balance := get_customer_balance db customer_id
      if current_balance < 0 then .error .creditBalance
      else if current_balance = 0 then .error .noOutstandingBalance
      else if current_balance < amount then .error .exceedsDebt
      else
        let entry : LedgerEntry :=
          { id := db.next_ledger_id, customer_id := customer_id, entry_type := .PAYMENT,
            amount := amount, balance_after := current_balance - amount,
            payment_method := payment_method, notes := notes, created_by := user_id, created_at := now }
        .ok ({ db with
               ledger := db.ledger ++ [entry],
               next_ledger_id := db.next_ledger_id + 1 }, db.next_ledger_id)

/-- Embeds `add_adjustment` (src/database.py lines 466-483).  NOTE: the source
performs no validation here at all — no customer-exists check, no
active check, no amount-sign check ("can be positive or negative").
The only failure is the enforced foreign-key constraint on
`customer_id` (and on `reference_id`), raised by sqlite at insert time,
which rolls the transaction back. -/
def add_adjustment (db : DB) (customer_id : Nat) (amount : ℚ)
    (reason : Option String) (reference_id : Option Nat)
    (user_id : Option Nat) (now : Nat) : Except DbError (DB × Nat) :=
  if (get_customer db customer_id).isNone then .error .fkViolation
  else if (match reference_id with
           | some r => (findEntry db r).isNone
           | none => false) then .error .fkViolation
  else
    let current_balance := get_customer_balance db customer_id
    let entry : LedgerEntry :=
      { id := db.next_ledger_id, customer_id := customer_id, entry_type := .ADJUSTMENT,
        amount := amount, balance_after := current_balance + amount, notes := reason,
        reference_id := reference_id, created_by := user_id, created_at := now }
    .ok ({ db with
           ledger := db.ledger ++ [entry],
           next_ledger_id := db.next_ledger_id + 1 }, db.next_ledger_id)

/-- Embeds `add_refund` (src/database.py lines 485-502).  Like
`add_adjustment`: no validation beyond the foreign keys; the refund is
subtracted from the balance. -/
def add_refund (db : DB) (customer_id : Nat) (amount : ℚ)
    (reason : Option String) (reference_id : Option Nat)
    (user_id : Option Nat) (now : Nat) : Except DbError (DB × Nat) :=
  if (get_customer db customer_id).isNone then .error .fkViolation
  else if (match reference_id with
           | some r => (findEntry db r).isNone
           | none => false) then .error .fkViolation
  else
    let current_balance := get_customer_balance db customer_id
    let entry : LedgerEntry :=
      { id := db.next_ledger_id, customer_id := customer_id, entry_type := .REFUND,
        amount := amount, balance_after := current_balance - amount, notes := reason,
        reference_id := reference_id, created_by := user_id, created_at := now }
    .ok ({ db with
           ledger := db.ledger ++ [entry],
           next_ledger_id := db.next_ledger_id + 1 }, db.next_ledger_id)

/-- Embeds `write_off_debt` (src/database.py lines 504-521).  No validation
beyond the `customer_id` foreign key; subtracts from the balance. -/
def write_off_debt (db : DB) (customer_id : Nat) (amount : ℚ)
    (reason : Option String) (user_id : Option Nat) (now : Nat) :
    Except DbError (DB × Nat) :=
  if (get_customer db customer_id).isNone then .error .fkViolation
  else
    let current_balance := get_customer_balance db customer_id
    let entry : LedgerEntry :=
      { id := db.next_ledger_id, customer_id := customer_id, entry_type := .WRITE_OFF,
        amount := amount, balance_after := current_balance - amount, notes := reason,
        created_by := user_id, created_at := now }
    .ok ({ db with
           ledger := db.ledger ++ [entry],
           next_ledger_id := db.next_ledger_id + 1 }, db.next_ledger_id)

/-! ### Entry lifecycle: `void_entry`, `unvoid_entry`,
`delete_ledger_entry` -/

/-- Embeds `void_entry` (src/database.py lines 523-548).  Returns `false`
without touching anything when the entry is missing or already voided;
otherwise sets the void flag and metadata on that row only and returns
`true`.  Never recalculates balances. -/
def void_entry (db : DB) (ledger_id : Nat) (reason : String)
    (user_id : Option Nat) (now : Nat) : DB × Bool :=
  match findEntry db ledger_id with
  | none => (db, false)
  | some entry =>
    if entry.is_voided then (db, false)
    else
      ({ db with
          ledger := db.ledger.map (fun x =>
            if x.id == ledger_id then
              { x with
                is_voided := true, voided_by := user_id,
                voided_at := some now, void_reason := some reason }
            else x) }, true)

/-- Embeds `unvoid_entry` (src/database.py lines 550-575).  Returns `false` if
missing or not currently voided; otherwise clears the void fields. -/
def unvoid_entry (db : DB) (ledger_id : Nat) (user_id : Option Nat) :
    DB × Bool :=
  match findEntry db ledger_id with
  | none => (db, false)
  | some entry =>
    if entry.is_voided = false then (db, false)
    else
      ({ db with
          ledger := db.ledger.map (fun x =>
            if x.id == ledger_id then
              { x with
                is_voided := false, voided_by := none,
                voided_at := none, void_reason := none }
            else x) }, true)

/-- Embeds `delete_ledger_entry` (src/database.py lines 1363-1382).  Looks the
entry up with `WHERE id = ? AND is_deleted = 0`; returns `false` if
that finds nothing (missing or already deleted); otherwise sets the
deleted flag and timestamp.  Never removes the row. -/
def delete_ledger_entry (db : DB) (ledger_id : Nat) (now : Nat) :
    DB × Bool :=
  match db.ledger.find? (fun e => e.id == ledger_id && !e.is_deleted) with
  | none => (db, false)
  | some _ =>
    ({ db with
        ledger := db.ledger.map (fun x =>
          if x.id == ledger_id then
            { x with is_deleted := true, deleted_at := some now }
          else x) }, true)

/-! ### Balance recalculation after edits (`update_debt_entry`,
`update_payment_entry`, `_recalculate_balances`) -/

/-- The prefix query of `_recalculate_balances`: signed sum over all of
the customer's rows with `id < ledger_id`, with no void/delete
filter. -/
def balance_before_id (db : DB) (customer_id ledger_id : Nat) : ℚ :=
  sumSigned (db.ledger.filter (fun e =>
    e.customer_id == customer_id && decide (e.id < ledger_id)))

/-- The `UPDATE ... WHERE id > ?` loop of `_recalculate_balances`:
walks the remaining rows (the ledger list is in `id` order), and for
each row of the customer with `id > ledger_id` accumulates its signed
delta into the running balance and rewrites its `balance_after`; other
rows pass through untouched. -/
def recalcWalk (customer_id ledger_id : Nat) (bal : ℚ) :
    List LedgerEntry → List LedgerEntry
  | [] => []
  | e :: rest =>
    if e.customer_id == customer_id && decide (ledger_id < e.id) then
      let bal2 := bal + signedDelta e
      { e with balance_after := bal2 } :: recalcWalk customer_id ledger_id bal2 rest
    else
      e :: recalcWalk customer_id ledger_id bal rest

/-- Embeds `UPDATE ledger SET balance_after = ? WHERE id = ?`, as a row
transformer. -/
def setBalFn (ledger_id : Nat) (b : ℚ) (x : LedgerEntry) : LedgerEntry :=
  if x.id == ledger_id then { x with balance_after := b } else x

/-- Embeds `_recalculate_balances` (src/database.py lines 1313-1361): computes
the signed prefix before the edited entry, re-reads the edited entry's
(new) amount and type, rewrites its `balance_after`, then walks all
later rows of the customer in ascending `id` order rewriting theirs.
The `none` branch is unreachable from the two callers, which have
already checked the row exists. -/
def recalculate_balances (db : DB) (customer_id ledger_id : Nat) : DB :=
  match findEntry db ledger_id with
  | none => db
  | some e =>
    let bal_after := balance_before_id db customer_id ledger_id + signedDelta e
    let led1 := db.ledger.map (setBalFn ledger_id bal_after)
    { db with ledger := recalcWalk customer_id ledger_id bal_after led1 }

/-- The shared mutation of `update_debt_entry` / `update_payment_entry`:
`UPDATE ledger SET amount = ?, notes = ? WHERE id = ?` followed by
`recalculate_balances_after_entry` (the `amount_diff` argument of the
Python wrapper is passed through and never used by
`_recalculate_balances`). -/
def editFn (ledger_id : Nat) (new_amount : ℚ) (notes : Option String)
    (x : LedgerEntry) : LedgerEntry :=
  if x.id == ledger_id then { x with amount := new_amount, notes := notes }
  else x

def apply_edit (db : DB) (ledger_id : Nat) (new_amount : ℚ)
    (notes : Option String) (customer_id : Nat) : DB :=
  let db1 : DB :=
    { db with ledger := db.ledger.map (editFn ledger_id new_amount notes) }
  recalculate_balances db1 customer_id ledger_id

/-- The unvalidated item total used by `update_debt_entry`: the sum of
price times quantity over the items, with quantity defaulting to 1. -/
def updateItemsTotal (items : List ItemInput) : ℚ :=
  (items.map (fun it => it.price * (it.quantity : ℚ))).sum

/-- Embeds `update_debt_entry` (src/database.py lines 1210-1250): fails if the
row is missing; otherwise sets the entry's amount to the item total and
its notes, replaces its `ledger_items` rows wholesale, and triggers the
downstream recalculation, in one transaction. -/
def update_debt_entry (db : DB) (ledger_id : Nat) (items : List ItemInput)
    (notes : Option String) : Except DbError DB :=
  match findEntry db ledger_id with
  | none => .error .notFound
  | some e =>
    let db1 := apply_edit db ledger_id (updateItemsTotal items) notes e.customer_id
    .ok { db1 with
          ledger_items :=
            (db1.ledger_items.filter (fun r => !(r.ledger_id == ledger_id)))
              ++ items.map (fun it =>
                { ledger_id := ledger_id, product_name := it.product_name,
                  price := it.price, quantity := it.quantity : LedgerItemRow }) }

/-- Embeds `update_payment_entry` (src/database.py lines 1252-1276): fails if
the row is missing; otherwise sets its amount and notes and triggers
the downstream recalculation. -/
def update_payment_entry (db : DB) (ledger_id : Nat) (amount : ℚ)
    (notes : Option String) : Except DbError DB :=
  match findEntry db ledger_id with
  | none => .error .notFound
  | some e => .ok (apply_edit db ledger_id amount notes e.customer_id)

/-! ### Reporting: `get_total_debt_all` -/

/-- The `JOIN customers c ON l.customer_id = c.id WHERE c.is_active = 1`
test: whether the entry's customer row exists and is active. -/
def isActiveCustomer (db : DB) (customer_id : Nat) : Bool :=
  match get_customer db customer_id with
  | some c => c.is_active
  | none => false

/-- Embeds `get_total_debt_all` (src/database.py lines 626-644): the signed
sum over entries of active customers — but, unlike
`get_customer_balance`, filtered by `is_voided = 0 AND is_deleted = 0`
(its own docstring says "excludes voided and deleted entries"). -/
def get_total_debt_all (db : DB) : ℚ :=
  sumSigned (db.ledger.filter (fun e =>
    isActiveCustomer db e.customer_id && !e.is_voided && !e.is_deleted))

/-! ### Donations: `get_donation`, `use_donation` -/

/-- Embeds `SELECT COALESCE(SUM(amount_used), 0) FROM donation_usage WHERE
donation_id = ?`. -/
def donation_amount_used (db : DB) (donation_id : Nat) : ℚ :=
  ((db.donation_usage.filter (fun u => u.donation_id == donation_id)).map
    (fun u => u.amount_used)).sum

/-- The record `get_donation` returns: the donation row plus the
derived `amount_used` / `amount_remaining` columns (computed by the
query, never stored). -/
structure DonationInfo where
  id : Nat
  amount : ℚ
  donor_name : Option String
  amount_used : ℚ
  amount_remaining : ℚ
deriving DecidableEq

/-- Embeds `get_donation` (src/database.py lines 1538-1558). -/
def get_donation (db : DB) (donation_id : Nat) : Option DonationInfo :=
  match db.donations.find? (fun d => d.id == donation_id) with
  | none => none
  | some d =>
    let used := donation_amount_used db donation_id
    some { id := d.id, amount := d.amount, donor_name := d.donor_name,
           amount_used := used, amount_remaining := d.amount - used }

/-- The customer-balance query inside `use_donation` (src/database.py
lines 1592-1603): signed sum restricted to rows with `is_voided = 0`.
NOTE this differs from `get_customer_balance`: voided entries are
excluded here (soft-deleted ones are still included). -/
def unvoided_balance (db : DB) (customer_id : Nat) : ℚ :=
  sumSigned (db.ledger.filter (fun e =>
    e.customer_id == customer_id && !e.is_voided))

/-- The failure cases of `use_donation` (returned as success-False
message dicts in Python rather than raised). -/
inductive UseDonationError
  | donationNotFound
  | insufficientFunds
  | exceedsDebt
  | fkViolation
deriving DecidableEq

/-- The donor display rule: the donor name when present and non-blank
after stripping, otherwise the literal string Anonymous. -/
def donorDisplay (donor_name : Option String) : String :=
  match donor_name with
  | some s => if s.trim ≠ "" then s else "Anonymous"
  | none => "Anonymous"

/-- The notes string of the inserted payment: the words Donation from
followed by the display name, then a hyphen-separated suffix when the
request carried non-empty notes. -/
def donationPaymentNotes (display : String) (notes : Option String) : String :=
  "Donation from " ++ display ++
    (match notes with
     | some n => if n ≠ "" then " - " ++ n else ""
     | none => "")

/-- Embeds `use_donation` (src/database.py lines 1565-1633).  Checks the
donation exists; computes `amount_remaining` on the fly from
`donation_usage`; fails when `amount_remaining < amount`; computes the
customer's balance over NON-VOIDED rows and fails when `amount` exceeds
it; otherwise inserts one `donation_usage` row and one `PAYMENT` ledger
entry (notes naming the donor, method `CASH`) in one transaction.  A
missing customer id would make the inserts violate their foreign keys,
rolling back. -/
def use_donation (db : DB) (donation_id customer_id : Nat) (amount : ℚ)
    (notes : Option String) (now : Nat) :
    Except UseDonationError (DB × Nat × Nat) :=
  match db.donations.find? (fun d => d.id == donation_id) with
  | none => .error .donationNotFound
  | some d =>
    let amount_used := donation_amount_used db donation_id
    let amount_remaining := d.amount - amount_used
    if amount_remaining < amount then .error .insufficientFunds
    else
      let current_balance := unvoided_balance db customer_id
      if current_balance < amount then .error .exceedsDebt
      else if (get_customer db customer_id).isNone then .error .fkViolation
      else
        let usage : DonationUsage :=
          { id := db.next_usage_id, donation_id := donation_id,
            customer_id := customer_id, amount_used := amount, notes := notes }
        let entry : LedgerEntry :=
          { id := db.next_ledger_id, customer_id := customer_id,
            entry_type := .PAYMENT, amount := amount,
            balance_after := current_balance - amount,
            payment_method := some "CASH",
            notes := some (donationPaymentNotes (donorDisplay d.donor_name) notes),
            created_at := now }
        .ok ({ db with
               donation_usage := db.donation_usage ++ [usage],
               ledger := db.ledger ++ [entry],
               next_usage_id := db.next_usage_id + 1,
               next_ledger_id := db.next_ledger_id + 1 },
             db.next_usage_id, db.next_ledger_id)

/-! ### Sequences of visibility operations (for the lifecycle claims) -/

/-- One call to the entry lifecycle manager. -/
inductive VisOp
  | voidOp (ledger_id : Nat) (reason : String) (user_id : Option Nat) (now : Nat)
  | unvoidOp (ledger_id : Nat) (user_id : Option Nat)
  | deleteOp (ledger_id : Nat) (now : Nat)

/-- Apply one lifecycle call (discarding its boolean result). -/
def applyVisOp (db : DB) : VisOp → DB
  | .voidOp lid reason uid now => (void_entry db lid reason uid now).1
  | .unvoidOp lid uid => (unvoid_entry db lid uid).1
  | .deleteOp lid now => (delete_ledger_entry db lid now).1

/-- Apply a sequence of lifecycle calls, in order. -/
def applyVisOps (db : DB) (ops : List VisOp) : DB :=
  ops.foldl applyVisOp db

/-- The balance-relevant (non-visibility) fields of a ledger row:
`id`, `customer_id`, `entry_type`, `amount`, `balance_after`. -/
def entryCore (e : LedgerEntry) : Nat × Nat × EntryType × ℚ × ℚ :=
  (e.id, e.customer_id, e.entry_type, e.amount, e.balance_after)

/-! ### Helper lemmas -/

theorem sumSigned_nil : sumSigned [] = 0 := rfl

theorem sumSigned_cons (e : LedgerEntry) (l : List LedgerEntry) :
    sumSigned (e :: l) = signedDelta e + sumSigned l := by
  simp [sumSigned]

theorem sumSigned_append (a b : List LedgerEntry) :
    sumSigned (a ++ b) = sumSigned a + sumSigned b := by
  simp [sumSigned]

/-- The customer balance as a function of the cores alone. -/
def coreBalance (cid : Nat) : List (Nat × Nat × EntryType × ℚ × ℚ) → ℚ
  | [] => 0
  | c :: rest =>
    (if c.2.1 == cid then signedAs c.2.2.1 c.2.2.2.1 else 0) + coreBalance cid rest

theorem signedDelta_eq_signedAs (e : LedgerEntry) :
    signedDelta e = signedAs e.entry_type e.amount := by
  cases h : e.entry_type <;> simp [signedDelta, signedAs, h]

theorem balance_core (cid : Nat) :
    ∀ L : List LedgerEntry,
      sumSigned (L.filter (fun e => e.customer_id == cid)) =
        coreBalance cid (L.map entryCore) := by
  intro L
  induction L with
  | nil => rfl
  | cons e rest ih =>
    by_cases h : e.customer_id = cid
    · simp [List.filter_cons, h, sumSigned_cons, coreBalance, entryCore, ih,
        signedDelta_eq_signedAs]
    · simp [List.filter_cons, h, coreBalance, entryCore, ih]

theorem get_customer_balance_core (db : DB) (cid : Nat) :
    get_customer_balance db cid = coreBalance cid (db.ledger.map entryCore) :=
  balance_core cid db.ledger

theorem void_entry_core (db : DB) (lid : Nat) (r : String)
    (uid : Option Nat) (now : Nat) :
    ((void_entry db lid r uid now).1).ledger.map entryCore =
      db.ledger.map entryCore := by
  unfold void_entry
  cases h : findEntry db lid with
  | none => rfl
  | some e =>
    by_cases hv : e.is_voided
    · simp [hv]
    · simp only [hv, Bool.false_eq_true, if_false, List.map_map]
      apply List.map_congr_left
      intro x _
      by_cases hid : x.id = lid <;> simp [hid, entryCore]

theorem unvoid_entry_core (db : DB) (lid : Nat) (uid : Option Nat) :
    ((unvoid_entry db lid uid).1).ledger.map entryCore =
      db.ledger.map entryCore := by
  unfold unvoid_entry
  cases h : findEntry db lid with
  | none => rfl
  | some e =>
    by_cases hv : e.is_voided = false
    · simp [hv]
    · show List.map entryCore (if e.is_voided = false then (db, false) else _).1.ledger = _
      rw [if_neg hv]
      simp only [List.map_map]
      apply List.map_congr_left
      intro x _
      by_cases hid : x.id = lid <;> simp [hid, entryCore]

theorem delete_ledger_entry_core (db : DB) (lid : Nat) (now : Nat) :
    ((delete_ledger_entry db lid now).1).ledger.map entryCore =
      db.ledger.map entryCore := by
  unfold delete_ledger_entry
  cases h : db.ledger.find? (fun e => e.id == lid && !e.is_deleted) with
  | none => rfl
  | some e =>
    simp only [List.map_map]
    apply List.map_congr_left
    intro x _
    by_cases hid : x.id = lid <;> simp [hid, entryCore]

theorem applyVisOp_core (db : DB) (op : VisOp) :
    (applyVisOp db op).ledger.map entryCore = db.ledger.map entryCore := by
  cases op with
  | voidOp lid r uid now => exact void_entry_core db lid r uid now
  | unvoidOp lid uid => exact unvoid_entry_core db lid uid
  | deleteOp lid now => exact delete_ledger_entry_core db lid now

theorem applyVisOps_core (ops : List VisOp) :
    ∀ db : DB, (applyVisOps db ops).ledger.map entryCore =
      db.ledger.map entryCore := by
  induction ops with
  | nil => intro db; rfl
  | cons op rest ih =>
    intro db
    show (applyVisOps (applyVisOp db op) rest).ledger.map entryCore = _
    rw [ih (applyVisOp db op), applyVisOp_core]

theorem mem_map_of_fix {f : LedgerEntry → LedgerEntry}
    {L : List LedgerEntry} {e : LedgerEntry}
    (he : e ∈ L) (hf : f e = e) : e ∈ L.map f := by
  simpa [hf] using List.mem_map_of_mem f he

theorem void_entry_other_mem (db : DB) (lid : Nat) (r : String)
    (uid : Option Nat) (now : Nat) (e : LedgerEntry)
    (he : e ∈ db.ledger) (hne : e.id ≠ lid) :
    e ∈ ((void_entry db lid r uid now).1).ledger := by
  unfold void_entry
  cases h : findEntry db lid with
  | none => exact he
  | some x =>
    by_cases hv : x.is_voided
    · simpa [hv] using he
    · simp only [hv, Bool.false_eq_true, if_false]
      exact mem_map_of_fix he (by simp [hne])

theorem unvoid_entry_other_mem (db : DB) (lid : Nat)
    (uid : Option Nat) (e : LedgerEntry)
    (he : e ∈ db.ledger) (hne : e.id ≠ lid) :
    e ∈ ((unvoid_entry db lid uid).1).ledger := by
  unfold unvoid_entry
  cases h : findEntry db lid with
  | none => exact he
  | some x =>
    by_cases hv : x.is_voided = false
    · simpa [hv] using he
    · show e ∈ (if x.is_voided = false then (db, false) else _).1.ledger
      rw [if_neg hv]
      exact mem_map_of_fix he (by simp [hne])

theorem delete_ledger_entry_other_mem (db : DB) (lid : Nat) (now : Nat)
    (e : LedgerEntry) (he : e ∈ db.ledger) (hne : e.id ≠ lid) :
    e ∈ ((delete_ledger_entry db lid now).1).ledger := by
  unfold delete_ledger_entry
  cases h : db.ledger.find? (fun y => y.id == lid && !y.is_deleted) with
  | none => exact he
  | some x => exact mem_map_of_fix he (by simp [hne])

/-- The claim's signed amount, stated from the spec's words: plus
`amount` for `entry_type` in {NEW_DEBT, ADJUSTMENT}, minus `amount`
for `entry_type` in {PAYMENT, WRITE_OFF, REFUND} (to be compared with
`signedDelta`, which is translated from the source's SQL `CASE`). -/
def claimSignedAmount (e : LedgerEntry) : ℚ :=
  if e.entry_type = .NEW_DEBT ∨ e.entry_type = .ADJUSTMENT then e.amount
  else if e.entry_type = .PAYMENT ∨ e.entry_type = .WRITE_OFF ∨
      e.entry_type = .REFUND then -e.amount
  else 0

/-- C1: for every customer, `get_customer_balance` returns the signed
sum — plus for NEW_DEBT/ADJUSTMENT, minus for PAYMENT/WRITE_OFF/REFUND
— over every ledger entry of that customer regardless of void/delete
flags (the filter below selects on `customer_id` only), and returns 0
for a customer with no entries. -/
theorem claim_C1_balance_signed_sum : ∀ (db : DB) (cid : Nat),
    get_customer_balance db cid =
      ((db.ledger.filter (fun e => e.customer_id == cid)).map
        claimSignedAmount).sum ∧
    (db.ledger.filter (fun e => e.customer_id == cid) = [] →
      get_customer_balance db cid = 0) := by
  intro db cid
  constructor
  · unfold get_customer_balance sumSigned
    congr 1
    apply List.map_congr_left
    intro e _
    cases h : e.entry_type <;> simp [signedDelta, claimSignedAmount, h]
  · intro h
    unfold get_customer_balance
    rw [h]
    rfl

/-- Witness for C1 at a concrete database with an empty ledger. -/
theorem claim_C1_balance_signed_sum_witness :
    get_customer_balance { customers := [], ledger := [] } 7 = 0 :=
  (claim_C1_balance_signed_sum { customers := [], ledger := [] } 7).2 rfl

/-- C3: any sequence of `void_entry` / `unvoid_entry` /
`delete_ledger_entry` calls leaves every entry's `id`, `customer_id`,
`entry_type`, `amount` and `balance_after` unchanged (`entryCore`),
removes no row (length preserved), and leaves `get_customer_balance`
unchanged for every customer; moreover each single call leaves every
entry other than its target completely untouched. -/
theorem claim_C3_lifecycle_frame :
    ∀ (db : DB) (ops : List VisOp) (cid : Nat),
      (applyVisOps db ops).ledger.map entryCore = db.ledger.map entryCore ∧
      (applyVisOps db ops).ledger.length = db.ledger.length ∧
      get_customer_balance (applyVisOps db ops) cid =
        get_customer_balance db cid ∧
      (∀ lid r uid now e, e ∈ db.ledger → e.id ≠ lid →
        e ∈ ((void_entry db lid r uid now).1).ledger) ∧
      (∀ lid uid e, e ∈ db.ledger → e.id ≠ lid →
        e ∈ ((unvoid_entry db lid uid).1).ledger) ∧
      (∀ lid now e, e ∈ db.ledger → e.id ≠ lid →
        e ∈ ((delete_ledger_entry db lid now).1).ledger) := by
  intro db ops cid
  have hcore := applyVisOps_core ops db
  refine ⟨hcore, ?_, ?_, ?_, ?_, ?_⟩
  · have := congrArg List.length hcore
    simpa using this
  · rw [get_customer_balance_core, get_customer_balance_core, hcore]
  · intro lid r uid now e he hne
    exact void_entry_other_mem db lid r uid now e he hne
  · intro lid uid e he hne
    exact unvoid_entry_other_mem db lid uid e he hne
  · intro lid now e he hne
    exact delete_ledger_entry_other_mem db lid now e he hne

/-- A one-customer, one-entry database used by several witnesses. -/
def dbOne : DB :=
  { customers := [{ id := 1 }],
    ledger := [{ id := 1, customer_id := 1, entry_type := .NEW_DEBT,
                 amount := 25, balance_after := 25 }],
    next_ledger_id := 2 }

/-- Witness for C3: voiding a different id leaves the sole entry in
place (hypotheses discharged at a concrete database). -/
theorem claim_C3_lifecycle_frame_witness :
    ({ id := 1, customer_id := 1, entry_type := .NEW_DEBT,
       amount := 25, balance_after := 25 : LedgerEntry }) ∈
      ((void_entry dbOne 2 "x" none 0).1).ledger :=
  (claim_C3_lifecycle_frame dbOne [] 1).2.2.2.1 2 "x" none 0 _
    (by simp [dbOne]) (by decide)

theorem computeItemsTotal_ok_eq :
    ∀ (items : List ItemInput) (t : ℚ), computeItemsTotal items = .ok t →
      t = (items.map (fun it => it.price * (it.quantity : ℚ))).sum := by
  intro items
  induction items with
  | nil =>
    intro t h
    injection h with h
    simp [← h]
  | cons it rest ih =>
    intro t h
    unfold computeItemsTotal at h
    split at h
    · exact absurd h (by simp)
    · split at h
      · exact absurd h (by simp)
      · split at h
        · exact absurd h (by simp)
        · rename_i t' heq
          injection h with h
          rw [← h, ih t' heq]
          simp

theorem add_debt_ok (db : DB) (cid : Nat) (items : List ItemInput)
    (rx ds nts : Option String) (uid : Option Nat) (now : Nat)
    (db' : DB) (lid : Nat)
    (hok : add_debt db cid items rx ds nts uid now = .ok (db', lid)) :
    ∃ total, computeItemsTotal items = .ok total ∧
      lid = db.next_ledger_id ∧
      db'.ledger = db.ledger ++
        [{ id := db.next_ledger_id, customer_id := cid,
           entry_type := .NEW_DEBT, amount := total,
           balance_after := get_customer_balance db cid + total,
           rx_number := rx, description := ds, notes := nts,
           created_by := uid, created_at := now }] := by
  unfold add_debt at hok
  split at hok
  · exact absurd hok (by simp)
  · split at hok
    · exact absurd hok (by simp)
    · split at hok
      · exact absurd hok (by simp)
      · split at hok
        · exact absurd hok (by simp)
        · rename_i total heq
          injection hok with hpair
          injection hpair with hdb hlid
          exact ⟨total, heq, hlid.symm, by rw [← hdb]⟩

theorem add_payment_ok (db : DB) (cid : Nat) (amount : ℚ)
    (pm nts : Option String) (uid : Option Nat) (now : Nat)
    (db' : DB) (lid : Nat)
    (hok : add_payment db cid amount pm nts uid now = .ok (db', lid)) :
    lid = db.next_ledger_id ∧
    db'.ledger = db.ledger ++
      [{ id := db.next_ledger_id, customer_id := cid,
         entry_type := .PAYMENT, amount := amount,
         balance_after := get_customer_balance db cid - amount,
         payment_method := pm, notes := nts,
         created_by := uid, created_at := now }] := by
  unfold add_payment at hok
  dsimp only at hok
  split at hok
  · exact absurd hok (by simp)
  · split at hok
    · exact absurd hok (by simp)
    · split at hok
      · exact absurd hok (by simp)
      · split at hok
        · exact absurd hok (by simp)
        · split at hok
          · exact absurd hok (by simp)
          · split at hok
            · exact absurd hok (by simp)
            · injection hok with hpair
              injection hpair with hdb hlid
              exact ⟨hlid.symm, by rw [← hdb]⟩

theorem add_adjustment_ok (db : DB) (cid : Nat) (amount : ℚ)
    (reason : Option String) (ref : Option Nat) (uid : Option Nat) (now : Nat)
    (db' : DB) (lid : Nat)
    (hok : add_adjustment db cid amount reason ref uid now = .ok (db', lid)) :
    lid = db.next_ledger_id ∧
    db'.ledger = db.ledger ++
      [{ id := db.next_ledger_id, customer_id := cid,
         entry_type := .ADJUSTMENT, amount := amount,
         balance_after := get_customer_balance db cid + amount,
         notes := reason, reference_id := ref,
         created_by := uid, created_at := now }] := by
  unfold add_adjustment at hok
  dsimp only at hok
  split at hok
  · exact absurd hok (by simp)
  · split at hok
    · exact absurd hok (by simp)
    · injection hok with hpair
      injection hpair with hdb hlid
      exact ⟨hlid.symm, by rw [← hdb]⟩

theorem add_refund_ok (db : DB) (cid : Nat) (amount : ℚ)
    (reason : Option String) (ref : Option Nat) (uid : Option Nat) (now : Nat)
    (db' : DB) (lid : Nat)
    (hok : add_refund db cid amount reason ref uid now = .ok (db', lid)) :
    lid = db.next_ledger_id ∧
    db'.ledger = db.ledger ++
      [{ id := db.next_ledger_id, customer_id := cid,
         entry_type := .REFUND, amount := amount,
         balance_after := get_customer_balance db cid - amount,
         notes := reason, reference_id := ref,
         created_by := uid, created_at := now }] := by
  unfold add_refund at hok
  dsimp only at hok
  split at hok
  · exact absurd hok (by simp)
  · split at hok
    · exact absurd hok (by simp)
    · injection hok with hpair
      injection hpair with hdb hlid
      exact ⟨hlid.symm, by rw [← hdb]⟩

theorem write_off_debt_ok (db : DB) (cid : Nat) (amount : ℚ)
    (reason : Option String) (uid : Option Nat) (now : Nat)
    (db' : DB) (lid : Nat)
    (hok : write_off_debt db cid amount reason uid now = .ok (db', lid)) :
    lid = db.next_ledger_id ∧
    db'.ledger = db.ledger ++
      [{ id := db.next_ledger_id, customer_id := cid,
         entry_type := .WRITE_OFF, amount := amount,
         balance_after := get_customer_balance db cid - amount,
         notes := reason, created_by := uid, created_at := now }] := by
  unfold write_off_debt at hok
  dsimp only at hok
  split at hok
  · exact absurd hok (by simp)
  · injection hok with hpair
    injection hpair with hdb hlid
    exact ⟨hlid.symm, by rw [← hdb]⟩

/-- Scenario A's item list: 2 × $10 and 1 × $5. -/
def scenarioItems : List ItemInput :=
  [{ product_name := "A", price := 10, quantity := 2 },
   { product_name := "B", price := 5, quantity := 1 }]

/-- Scenario A's initial database: one active customer with
`credit_limit = 500` and an empty ledger. -/
def dbScenario : DB :=
  { customers := [{ id := 1, credit_limit := 500 }], ledger := [] }

/-- C6: every successful append (`add_debt`, `add_payment`,
`add_adjustment`, `add_refund`, `write_off_debt`) appends exactly one
entry whose `balance_after` equals the customer's balance before the
insert plus the entry's signed delta; a NEW_DEBT's amount is the sum of
`price × quantity` over its items; and in Scenario A (balance 0, items
$10×2 and $5×1) the balance becomes 25 and the entry's `balance_after`
is 25. -/
theorem claim_C6_append_balance_after :
    (∀ (db : DB) (cid : Nat) (items : List ItemInput)
      (rx ds nts : Option String) (uid : Option Nat) (now : Nat)
      (db' : DB) (lid : Nat),
      add_debt db cid items rx ds nts uid now = .ok (db', lid) →
      ∃ e : LedgerEntry, db'.ledger = db.ledger ++ [e] ∧
        e.entry_type = .NEW_DEBT ∧
        e.amount = (items.map (fun it => it.price * (it.quantity : ℚ))).sum ∧
        e.balance_after = get_customer_balance db cid + signedDelta e) ∧
    (∀ (db : DB) (cid : Nat) (amount : ℚ) (pm nts : Option String)
      (uid : Option Nat) (now : Nat) (db' : DB) (lid : Nat),
      add_payment db cid amount pm nts uid now = .ok (db', lid) →
      ∃ e : LedgerEntry, db'.ledger = db.ledger ++ [e] ∧
        e.entry_type = .PAYMENT ∧ e.amount = amount ∧
        e.balance_after = get_customer_balance db cid + signedDelta e) ∧
    (∀ (db : DB) (cid : Nat) (amount : ℚ) (reason : Option String)
      (ref : Option Nat) (uid : Option Nat) (now : Nat) (db' : DB) (lid : Nat),
      add_adjustment db cid amount reason ref uid now = .ok (db', lid) →
      ∃ e : LedgerEntry, db'.ledger = db.ledger ++ [e] ∧
        e.entry_type = .ADJUSTMENT ∧ e.amount = amount ∧
        e.balance_after = get_customer_balance db cid + signedDelta e) ∧
    (∀ (db : DB) (cid : Nat) (amount : ℚ) (reason : Option String)
      (ref : Option Nat) (uid : Option Nat) (now : Nat) (db' : DB) (lid : Nat),
      add_refund db cid amount reason ref uid now = .ok (db', lid) →
      ∃ e : LedgerEntry, db'.ledger = db.ledger ++ [e] ∧
        e.entry_type = .REFUND ∧ e.amount = amount ∧
        e.balance_after = get_customer_balance db cid + signedDelta e) ∧
    (∀ (db : DB) (cid : Nat) (amount : ℚ) (reason : Option String)
      (uid : Option Nat) (now : Nat) (db' : DB) (lid : Nat),
      write_off_debt db cid amount reason uid now = .ok (db', lid) →
      ∃ e : LedgerEntry, db'.ledger = db.ledger ++ [e] ∧
        e.entry_type = .WRITE_OFF ∧ e.amount = amount ∧
        e.balance_after = get_customer_balance db cid + signedDelta e) ∧
    (∃ dbA : DB,
      add_debt dbScenario 1 scenarioItems none none none none 0 = .ok (dbA, 1) ∧
      get_customer_balance dbScenario 1 = 0 ∧
      get_customer_balance dbA 1 = 25 ∧
      (findEntry dbA 1).map (fun e => e.balance_after) = some 25) := by
  refine ⟨?_, ?_, ?_, ?_, ?_, ?_⟩
  · intro db cid items rx ds nts uid now db' lid hok
    obtain ⟨total, heq, -, hledger⟩ :=
      add_debt_ok db cid items rx ds nts uid now db' lid hok
    refine ⟨_, hledger, rfl, ?_, ?_⟩
    · exact computeItemsTotal_ok_eq items total heq
    · simp [signedDelta]
  · intro db cid amount pm nts uid now db' lid hok
    obtain ⟨-, hledger⟩ := add_payment_ok db cid amount pm nts uid now db' lid hok
    refine ⟨_, hledger, rfl, rfl, ?_⟩
    simp [signedDelta]
    ring
  · intro db cid amount reason ref uid now db' lid hok
    obtain ⟨-, hledger⟩ :=
      add_adjustment_ok db cid amount reason ref uid now db' lid hok
    exact ⟨_, hledger, rfl, rfl, by simp [signedDelta]⟩
  · intro db cid amount reason ref uid now db' lid hok
    obtain ⟨-, hledger⟩ :=
      add_refund_ok db cid amount reason ref uid now db' lid hok
    refine ⟨_, hledger, rfl, rfl, ?_⟩
    simp [signedDelta]
    ring
  · intro db cid amount reason uid now db' lid hok
    obtain ⟨-, hledger⟩ :=
      write_off_debt_ok db cid amount reason uid now db' lid hok
    refine ⟨_, hledger, rfl, rfl, ?_⟩
    simp [signedDelta]
    ring
  · refine ⟨_, rfl, rfl, ?_, ?_⟩
    · simp [get_customer_balance, sumSigned, signedDelta, dbScenario,
        scenarioItems, List.filter]
      norm_num
    · simp [findEntry, List.find?, get_customer_balance, sumSigned,
        signedDelta, dbScenario, scenarioItems, List.filter]
      norm_num

/-- The database produced by Scenario A's `add_debt` call. -/
def dbScenarioAfter : DB :=
  match add_debt dbScenario 1 scenarioItems none none none none 0 with
  | .ok p => p.1
  | .error _ => dbScenario

/-- Witness for C6: Scenario A's append, with the success hypothesis
discharged definitionally. -/
theorem claim_C6_append_balance_after_witness :
    ∃ e : LedgerEntry, dbScenarioAfter.ledger = dbScenario.ledger ++ [e] ∧
      e.entry_type = .NEW_DEBT ∧
      e.amount = (scenarioItems.map (fun it => it.price * (it.quantity : ℚ))).sum ∧
      e.balance_after = get_customer_balance dbScenario 1 + signedDelta e :=
  claim_C6_append_balance_after.1 dbScenario 1 scenarioItems none none none none
    0 dbScenarioAfter 1 rfl

/-- A database whose only customer is deactivated. -/
def dbInactive : DB :=
  { customers := [{ id := 1, is_active := false }], ledger := [] }

/-- Counterexample to C7: `add_adjustment` (and likewise `add_refund`
and `write_off_debt`) performs none of the claimed checks — here the
customer is deactivated AND the amount is negative, yet the call
succeeds and inserts a row. -/
theorem claim_C7_counterexample :
    (∃ p, add_adjustment dbInactive 1 (-5) (some "r") none none 0 = .ok p) ∧
    (∃ p, add_refund dbInactive 1 0 (some "r") none none 0 = .ok p) ∧
    (∃ p, write_off_debt dbInactive 1 (-3) (some "r") none 0 = .ok p) :=
  ⟨⟨_, rfl⟩, ⟨_, rfl⟩, ⟨_, rfl⟩⟩

theorem computeItemsTotal_error :
    ∀ (items : List ItemInput),
      (∃ it ∈ items, it.price ≤ 0 ∨ it.quantity ≤ 0) →
      computeItemsTotal items = .error .invalidAmount := by
  intro items
  induction items with
  | nil => rintro ⟨it, hmem, -⟩; cases hmem
  | cons hd rest ih =>
    rintro ⟨it, hmem, hbad⟩
    unfold computeItemsTotal
    rcases List.mem_cons.mp hmem with heq | hmem'
    · subst heq
      rcases hbad with h | h
      · rw [if_pos h]
      · by_cases hp : it.price ≤ 0
        · rw [if_pos hp]
        · rw [if_neg hp, if_pos h]
    · by_cases hp : hd.price ≤ 0
      · rw [if_pos hp]
      · rw [if_neg hp]
        by_cases hq : hd.quantity ≤ 0
        · rw [if_pos hq]
        · rw [if_neg hq, ih ⟨it, hmem', hbad⟩]

/-- C7 as amended: `add_debt` and `add_payment` do fail as claimed
(missing customer, deactivated customer, non-positive amount or item
price/quantity), but `add_adjustment`, `add_refund` and
`write_off_debt` perform none of those checks: whenever the customer id
exists (active or not) they succeed for any amount, including
non-positive ones. -/
theorem claim_C7_amended_validation :
    (∀ (db : DB) (cid : Nat) (items : List ItemInput)
      (rx ds nts : Option String) (uid : Option Nat) (now : Nat),
      get_customer db cid = none →
      add_debt db cid items rx ds nts uid now = .error .notFound) ∧
    (∀ (db : DB) (cid : Nat) (items : List ItemInput)
      (rx ds nts : Option String) (uid : Option Nat) (now : Nat)
      (c : Customer),
      get_customer db cid = some c → c.is_active = false →
      add_debt db cid items rx ds nts uid now = .error .inactiveCustomer) ∧
    (∀ (db : DB) (cid : Nat) (items : List ItemInput)
      (rx ds nts : Option String) (uid : Option Nat) (now : Nat)
      (c : Customer),
      get_customer db cid = some c → c.is_active = true → items ≠ [] →
      (∃ it ∈ items, it.price ≤ 0 ∨ it.quantity ≤ 0) →
      add_debt db cid items rx ds nts uid now = .error .invalidAmount) ∧
    (∀ (db : DB) (cid : Nat) (amount : ℚ) (pm nts : Option String)
      (uid : Option Nat) (now : Nat),
      get_customer db cid = none →
      add_payment db cid amount pm nts uid now = .error .notFound) ∧
    (∀ (db : DB) (cid : Nat) (amount : ℚ) (pm nts : Option String)
      (uid : Option Nat) (now : Nat) (c : Customer),
      get_customer db cid = some c → c.is_active = false →
      add_payment db cid amount pm nts uid now = .error .inactiveCustomer) ∧
    (∀ (db : DB) (cid : Nat) (amount : ℚ) (pm nts : Option String)
      (uid : Option Nat) (now : Nat) (c : Customer),
      get_customer db cid = some c → c.is_active = true → amount ≤ 0 →
      add_payment db cid amount pm nts uid now = .error .invalidAmount) ∧
    (∀ (db : DB) (cid : Nat) (amount : ℚ) (reason : Option String)
      (uid : Option Nat) (now : Nat) (c : Customer),
      get_customer db cid = some c →
      ∃ p, add_adjustment db cid amount reason none uid now = .ok p) ∧
    (∀ (db : DB) (cid : Nat) (amount : ℚ) (reason : Option String)
      (uid : Option Nat) (now : Nat) (c : Customer),
      get_customer db cid = some c →
      ∃ p, add_refund db cid amount reason none uid now = .ok p) ∧
    (∀ (db : DB) (cid : Nat) (amount : ℚ) (reason : Option String)
      (uid : Option Nat) (now : Nat) (c : Customer),
      get_customer db cid = some c →
      ∃ p, write_off_debt db cid amount reason uid now = .ok p) := by
  refine ⟨?_, ?_, ?_, ?_, ?_, ?_, ?_, ?_, ?_⟩
  · intro db cid items rx ds nts uid now hc
    unfold add_debt
    rw [hc]
  · intro db cid items rx ds nts uid now c hc hact
    unfold add_debt
    rw [hc]
    dsimp only
    rw [if_pos hact]
  · intro db cid items rx ds nts uid now c hc hact hne hbad
    unfold add_debt
    rw [hc]
    dsimp only
    rw [if_neg (by simp [hact]), if_neg (by simpa using hne),
      computeItemsTotal_error items hbad]
  · intro db cid amount pm nts uid now hc
    unfold add_payment
    rw [hc]
  · intro db cid amount pm nts uid now c hc hact
    unfold add_payment
    rw [hc]
    dsimp only
    rw [if_pos hact]
  · intro db cid amount pm nts uid now c hc hact hle
    unfold add_payment
    rw [hc]
    dsimp only
    rw [if_neg (by simp [hact]), if_pos hle]
  · intro db cid amount reason uid now c hc
    exact ⟨_, by unfold add_adjustment; rw [if_neg (by simp [hc])]; rfl⟩
  · intro db cid amount reason uid now c hc
    exact ⟨_, by unfold add_refund; rw [if_neg (by simp [hc])]; rfl⟩
  · intro db cid amount reason uid now c hc
    exact ⟨_, by unfold write_off_debt; rw [if_neg (by simp [hc])]⟩

/-- Witness for the amended C7: a write-off of a negative amount for
the deactivated customer succeeds (no validation). -/
theorem claim_C7_amended_validation_witness :
    ∃ p, write_off_debt dbInactive 1 (-7) (some "w") none 0 = .ok p :=
  claim_C7_amended_validation.2.2.2.2.2.2.2.2 dbInactive 1 (-7) (some "w")
    none 0 { id := 1, is_active := false } rfl

/-- C8: for an (existing, active) customer with positive balance `B`,
`add_payment` of an amount strictly greater than `B` fails with the
exceeds-debt error and inserts nothing (an `.error` result leaves the
database unchanged); a payment of exactly `B` succeeds.  Scenario B:
with balance $25 a $30 payment is rejected and the balance stays
$25. -/
theorem claim_C8_overpayment_rejected :
    (∀ (db : DB) (cid : Nat) (amount : ℚ) (pm nts : Option String)
      (uid : Option Nat) (now : Nat) (c : Customer),
      get_customer db cid = some c → c.is_active = true →
      0 < get_customer_balance db cid →
      get_customer_balance db cid < amount →
      add_payment db cid amount pm nts uid now = .error .exceedsDebt) ∧
    (∀ (db : DB) (cid : Nat) (pm nts : Option String)
      (uid : Option Nat) (now : Nat) (c : Customer),
      get_customer db cid = some c → c.is_active = true →
      0 < get_customer_balance db cid →
      ∃ p, add_payment db cid (get_customer_balance db cid) pm nts uid now =
        .ok p) ∧
    (add_payment dbOne 1 30 none none none 0 = .error .exceedsDebt ∧
      get_customer_balance dbOne 1 = 25) := by
  have hmain : ∀ (db : DB) (cid : Nat) (amount : ℚ) (pm nts : Option String)
      (uid : Option Nat) (now : Nat) (c : Customer),
      get_customer db cid = some c → c.is_active = true →
      0 < get_customer_balance db cid →
      get_customer_balance db cid < amount →
      add_payment db cid amount pm nts uid now = .error .exceedsDebt := by
    intro db cid amount pm nts uid now c hc hact hpos hlt
    unfold add_payment
    rw [hc]
    dsimp only
    rw [if_neg (by simp [hact]), if_neg (by linarith), if_neg (by linarith),
      if_neg (ne_of_gt hpos), if_pos hlt]
  have hbal : get_customer_balance dbOne 1 = 25 := by
    simp [get_customer_balance, sumSigned, signedDelta, dbOne, List.filter]
  refine ⟨hmain, ?_, ?_, hbal⟩
  · intro db cid pm nts uid now c hc hact hpos
    exact ⟨_, by
      unfold add_payment
      rw [hc]
      dsimp only
      rw [if_neg (by simp [hact]), if_neg (by linarith), if_neg (by linarith),
        if_neg (ne_of_gt hpos), if_neg (lt_irrefl _)]⟩
  · exact hmain dbOne 1 30 none none none 0 { id := 1 } rfl rfl
      (by rw [hbal]; norm_num) (by rw [hbal]; norm_num)

/-- Witness for C8: Scenario B's rejection at the concrete database
`dbOne`, obtained by applying the theorem's first conjunct. -/
theorem claim_C8_overpayment_rejected_witness :
    add_payment dbOne 1 26 none none none 0 = .error .exceedsDebt :=
  claim_C8_overpayment_rejected.1 dbOne 1 26 none none none 0 { id := 1 } rfl
    rfl
    (by rw [claim_C8_overpayment_rejected.2.2.2]; norm_num)
    (by rw [claim_C8_overpayment_rejected.2.2.2]; norm_num)

/-- C10: a customer must have a strictly positive balance for any
payment to be recorded — whenever the current balance is zero or
negative, `add_payment` with any positive amount returns an error (and
so inserts nothing), for every customer id. -/
theorem claim_C10_zero_balance_rejects_payment :
    ∀ (db : DB) (cid : Nat) (amount : ℚ) (pm nts : Option String)
      (uid : Option Nat) (now : Nat),
      0 < amount → get_customer_balance db cid ≤ 0 →
      ∃ err, add_payment db cid amount pm nts uid now = .error err := by
  intro db cid amount pm nts uid now hamt hbal
  unfold add_payment
  cases hc : get_customer db cid with
  | none => exact ⟨.notFound, rfl⟩
  | some c =>
    dsimp only
    by_cases hact : c.is_active = false
    · exact ⟨.inactiveCustomer, by rw [if_pos hact]⟩
    · rcases lt_or_eq_of_le hbal with h | h
      · exact ⟨.creditBalance, by
          rw [if_neg hact, if_neg (by linarith), if_pos h]⟩
      · exact ⟨.noOutstandingBalance, by
          rw [if_neg hact, if_neg (by linarith), if_neg (by linarith), if_pos h]⟩

/-- Witness for C10 at a concrete zero-balance customer. -/
theorem claim_C10_zero_balance_rejects_payment_witness :
    ∃ err, add_payment dbScenario 1 5 none none none 0 = .error err :=
  claim_C10_zero_balance_rejects_payment dbScenario 1 5 none none none 0
    (by norm_num) (by norm_num [get_customer_balance, sumSigned, dbScenario])

theorem find_not_deleted (lid : Nat) :
    ∀ L : List LedgerEntry, (L.map (fun e => e.id)).Nodup →
      ∀ e, L.find? (fun y => y.id == lid) = some e →
        L.find? (fun y => y.id == lid && !y.is_deleted) =
          (if e.is_deleted then none else some e) := by
  intro L
  induction L with
  | nil => intro _ e h; cases h
  | cons hd tl ih =>
    intro hn e h
    obtain ⟨hnotin, hn'⟩ := List.nodup_cons.mp hn
    by_cases hid : hd.id = lid
    · rw [List.find?_cons_of_pos _ (by simp [hid])] at h
      injection h with h
      subst h
      by_cases hdel : hd.is_deleted
      · rw [if_pos hdel]
        apply List.find?_eq_none.mpr
        intro y hy
        rcases List.mem_cons.mp hy with rfl | hy'
        · simp [hdel]
        · have : y.id ≠ lid := by
            intro hcontra
            apply hnotin
            show hd.id ∈ List.map (fun e => e.id) tl
            rw [hid, ← hcontra]
            simpa using List.mem_map_of_mem (fun e => e.id) hy'
          simp [this]
      · rw [if_neg hdel, List.find?_cons_of_pos _ (by simp [hid, hdel])]
    · rw [List.find?_cons_of_neg _ (by simp [hid])] at h
      rw [List.find?_cons_of_neg _ (by simp [hid])]
      exact ih hn' e h

/-- C9: `void_entry` on a missing or already-voided entry,
`unvoid_entry` on a missing or not-voided entry, and
`delete_ledger_entry` on a missing or already-deleted entry each return
`false` and leave the database exactly as it was; in the remaining
cases each returns `true`. -/
theorem claim_C9_lifecycle_returns :
    ∀ (db : DB) (lid : Nat) (r : String) (uid : Option Nat) (now : Nat),
      (findEntry db lid = none →
        void_entry db lid r uid now = (db, false) ∧
        unvoid_entry db lid uid = (db, false) ∧
        delete_ledger_entry db lid now = (db, false)) ∧
      (∀ e : LedgerEntry, findEntry db lid = some e →
        (e.is_voided = true → void_entry db lid r uid now = (db, false)) ∧
        (e.is_voided = false → (void_entry db lid r uid now).2 = true) ∧
        (e.is_voided = false → unvoid_entry db lid uid = (db, false)) ∧
        (e.is_voided = true → (unvoid_entry db lid uid).2 = true) ∧
        ((db.ledger.map (fun x => x.id)).Nodup → e.is_deleted = true →
          delete_ledger_entry db lid now = (db, false)) ∧
        ((db.ledger.map (fun x => x.id)).Nodup → e.is_deleted = false →
          (delete_ledger_entry db lid now).2 = true)) := by
  intro db lid r uid now
  constructor
  · intro h
    have hconj : db.ledger.find? (fun y => y.id == lid && !y.is_deleted) = none := by
      apply List.find?_eq_none.mpr
      intro y hy
      have := List.find?_eq_none.mp h y hy
      simp at this ⊢
      intro hcontra
      exact absurd hcontra this
    refine ⟨?_, ?_, ?_⟩
    · unfold void_entry; rw [h]
    · unfold unvoid_entry; rw [h]
    · unfold delete_ledger_entry; rw [hconj]
  · intro e he
    refine ⟨?_, ?_, ?_, ?_, ?_, ?_⟩
    · intro hv
      unfold void_entry
      rw [he]
      dsimp only
      rw [if_pos hv]
    · intro hv
      unfold void_entry
      rw [he]
      dsimp only
      rw [if_neg (by simp [hv])]
    · intro hv
      unfold unvoid_entry
      rw [he]
      dsimp only
      rw [if_pos hv]
    · intro hv
      unfold unvoid_entry
      rw [he]
      dsimp only
      rw [if_neg (by simp [hv])]
    · intro hn hdel
      unfold delete_ledger_entry
      rw [find_not_deleted lid db.ledger hn e he, if_pos hdel]
    · intro hn hdel
      unfold delete_ledger_entry
      rw [find_not_deleted lid db.ledger hn e he, if_neg (by simp [hdel])]

/-- Witness for C9: voiding the (non-voided) sole entry of `dbOne`
returns `true`. -/
theorem claim_C9_lifecycle_returns_witness :
    (void_entry dbOne 1 "mistake" none 0).2 = true :=
  (((claim_C9_lifecycle_returns dbOne 1 "mistake" none 0).2
    { id := 1, customer_id := 1, entry_type := .NEW_DEBT,
      amount := 25, balance_after := 25 } rfl).2.1) rfl

/-! ### C5: `get_total_debt_all` versus the per-customer balances -/

/-- The sum of `get_customer_balance` over all active customers — what
the claim says `get_total_debt_all` equals. -/
def sumActiveBalances (db : DB) : ℚ :=
  ((db.customers.filter (fun c => c.is_active)).map
    (fun c => get_customer_balance db c.id)).sum

/-- The per-customer signed sum restricted to non-voided, non-deleted
rows — the quantity `get_total_debt_all` actually aggregates. -/
def filteredBalance (db : DB) (cid : Nat) : ℚ :=
  sumSigned (db.ledger.filter (fun e =>
    e.customer_id == cid && !e.is_voided && !e.is_deleted))

/-- An active customer whose only entry (a $10 debt) is voided. -/
def dbC5 : DB :=
  { customers := [{ id := 1 }],
    ledger := [{ id := 1, customer_id := 1, entry_type := .NEW_DEBT,
                 amount := 10, balance_after := 10, is_voided := true }],
    next_ledger_id := 2 }

/-- Counterexample to C5: `get_total_debt_all` filters out voided (and
deleted) entries before summing, so on `dbC5` it returns 0 while the
sum of `get_customer_balance` over active customers is 10. -/
theorem claim_C5_counterexample :
    get_total_debt_all dbC5 = 0 ∧ sumActiveBalances dbC5 = 10 ∧
      get_total_debt_all dbC5 ≠ sumActiveBalances dbC5 := by
  refine ⟨?_, ?_, ?_⟩
  · simp [get_total_debt_all, dbC5, sumSigned, List.filter]
  · simp [sumActiveBalances, get_customer_balance, dbC5, sumSigned,
      signedDelta, List.filter]
  · simp [get_total_debt_all, sumActiveBalances, get_customer_balance, dbC5,
      sumSigned, signedDelta, List.filter]

/-- The test `isActiveCustomer`, phrased over a bare customer list (so the
grouping lemma can recurse on it). -/
def isActiveIn (cs : List Customer) (cid : Nat) : Bool :=
  match cs.find? (fun c => c.id == cid) with
  | some c => c.is_active
  | none => false

theorem isActiveCustomer_eq (db : DB) (cid : Nat) :
    isActiveCustomer db cid = isActiveIn db.customers cid := rfl

theorem isActiveIn_cons (c : Customer) (cs : List Customer) (cid : Nat) :
    isActiveIn (c :: cs) cid =
      if c.id = cid then c.is_active else isActiveIn cs cid := by
  unfold isActiveIn
  by_cases h : c.id = cid
  · rw [List.find?_cons_of_pos _ (by simp [h]), if_pos h]
  · rw [List.find?_cons_of_neg _ (by simp [h]), if_neg h]

theorem isActiveIn_not_mem (cs : List Customer) (cid : Nat)
    (h : cid ∉ cs.map (fun c => c.id)) : isActiveIn cs cid = false := by
  unfold isActiveIn
  rw [List.find?_eq_none.mpr]
  intro c hc
  simp only [Bool.not_eq_true, beq_eq_false_iff_ne, ne_eq]
  intro hcontra
  exact h (by
    rw [← hcontra]
    simpa using List.mem_map_of_mem (fun c => c.id) hc)

theorem sumSigned_filter_or (p q : LedgerEntry → Bool) :
    ∀ L : List LedgerEntry, (∀ e ∈ L, ¬(p e = true ∧ q e = true)) →
      sumSigned (L.filter (fun e => p e || q e)) =
        sumSigned (L.filter p) + sumSigned (L.filter q) := by
  intro L
  induction L with
  | nil => intro _; simp [sumSigned]
  | cons e rest ih =>
    intro hdisj
    have hrest := fun x hx => hdisj x (List.mem_cons_of_mem e hx)
    by_cases hp : p e = true
    · have hq : q e = false := by
        cases hqv : q e
        · rfl
        · exact absurd ⟨hp, hqv⟩ (hdisj e (List.mem_cons_self e rest))
      simp only [List.filter_cons, hp, hq, Bool.true_or, if_true,
        Bool.false_eq_true, if_false, sumSigned_cons, ih hrest]
      ring
    · have hp' : p e = false := by
        cases hpv : p e
        · rfl
        · exact absurd hpv hp
      by_cases hqv : q e = true
      · simp only [List.filter_cons, hp', hqv, Bool.false_or, if_true,
          Bool.false_eq_true, if_false, sumSigned_cons, ih hrest]
        ring
      · have hq' : q e = false := by
          cases h2 : q e
          · rfl
          · exact absurd h2 hqv
        simp only [List.filter_cons, hp', hq', Bool.false_or,
          Bool.false_eq_true, if_false, ih hrest]

theorem grouped_total (L : List LedgerEntry) :
    ∀ cs : List Customer, (cs.map (fun c => c.id)).Nodup →
      sumSigned (L.filter (fun e =>
        isActiveIn cs e.customer_id && !e.is_voided && !e.is_deleted)) =
      ((cs.filter (fun c => c.is_active)).map (fun c =>
        sumSigned (L.filter (fun e =>
          e.customer_id == c.id && !e.is_voided && !e.is_deleted)))).sum := by
  intro cs
  induction cs with
  | nil =>
    intro _
    simp [isActiveIn, sumSigned]
  | cons c cs' ih =>
    intro hn
    obtain ⟨hnotin, hn'⟩ := List.nodup_cons.mp hn
    have hsplit : L.filter (fun e =>
        isActiveIn (c :: cs') e.customer_id && !e.is_voided && !e.is_deleted) =
      L.filter (fun e =>
        ((e.customer_id == c.id) && c.is_active && !e.is_voided && !e.is_deleted) ||
        (isActiveIn cs' e.customer_id && !e.is_voided && !e.is_deleted)) := by
      apply List.filter_congr
      intro e _
      rw [isActiveIn_cons]
      by_cases h : c.id = e.customer_id
      · have hm : isActiveIn cs' e.customer_id = false := by
          apply isActiveIn_not_mem
          rw [← h]
          simpa using hnotin
        rw [if_pos h, hm]
        cases c.is_active <;> cases e.is_voided <;> cases e.is_deleted <;>
          simp [← h]
      · have hne : (e.customer_id == c.id) = false := by
          simp
          exact fun hcontra => h hcontra.symm
        rw [if_neg h, hne]
        simp
    rw [hsplit]
    rw [sumSigned_filter_or _ _ L ?hdisj]
    case hdisj =>
      intro e _
      rintro ⟨h1, h2⟩
      have he : (e.customer_id == c.id) = true := by
        cases hb : (e.customer_id == c.id)
        · rw [hb] at h1; simp at h1
        · rfl
      have hm : isActiveIn cs' e.customer_id = false := by
        apply isActiveIn_not_mem
        rw [show e.customer_id = c.id from by simpa using he]
        simpa using hnotin
      rw [hm] at h2
      simp at h2
    rw [ih hn']
    by_cases hact : c.is_active = true
    · have hfil : L.filter (fun e =>
          (e.customer_id == c.id) && c.is_active && !e.is_voided && !e.is_deleted) =
        L.filter (fun e =>
          (e.customer_id == c.id) && !e.is_voided && !e.is_deleted) := by
        apply List.filter_congr
        intro e _
        rw [hact]
        cases (e.customer_id == c.id) <;> simp
      rw [hfil]
      simp [List.filter_cons, hact]
    · have hact' : c.is_active = false := by
        cases hb : c.is_active
        · rfl
        · exact absurd hb hact
      have hfil : L.filter (fun e =>
          (e.customer_id == c.id) && c.is_active && !e.is_voided && !e.is_deleted) =
        [] := by
        apply List.filter_eq_nil_iff.mpr
        intro e _
        rw [hact']
        simp
      rw [hfil]
      simp [List.filter_cons, hact', sumSigned]

/-- C5 as amended: `get_total_debt_all` does NOT agree with the §4.2
all-entries formula — it equals the sum, over active customers, of the
signed total of their NON-VOIDED, NON-DELETED entries
(`filteredBalance`), which differs from `sumActiveBalances` as soon as
an active customer has a voided or deleted entry
(`claim_C5_counterexample`). -/
theorem claim_C5_amended_total_debt :
    ∀ db : DB, (db.customers.map (fun c => c.id)).Nodup →
      get_total_debt_all db =
        ((db.customers.filter (fun c => c.is_active)).map
          (fun c => filteredBalance db c.id)).sum := by
  intro db hn
  have h1 : get_total_debt_all db =
      sumSigned (db.ledger.filter (fun e =>
        isActiveIn db.customers e.customer_id && !e.is_voided && !e.is_deleted)) := rfl
  rw [h1, grouped_total db.ledger db.customers hn]
  rfl

/-- Witness for the amended C5 at the concrete database `dbC5`. -/
theorem claim_C5_amended_total_debt_witness :
    get_total_debt_all dbC5 =
      ((dbC5.customers.filter (fun c => c.is_active)).map
        (fun c => filteredBalance dbC5 c.id)).sum :=
  claim_C5_amended_total_debt dbC5 (by decide)

/-! ### C2 infrastructure: what an edit does to the ledger -/

theorem editFn_id (lid : Nat) (amt : ℚ) (nts : Option String)
    (x : LedgerEntry) : (editFn lid amt nts x).id = x.id := by
  unfold editFn
  by_cases h : x.id == lid <;> simp [h]

theorem editFn_customer (lid : Nat) (amt : ℚ) (nts : Option String)
    (x : LedgerEntry) : (editFn lid amt nts x).customer_id = x.customer_id := by
  unfold editFn
  by_cases h : x.id == lid <;> simp [h]

theorem editFn_of_ne (lid : Nat) (amt : ℚ) (nts : Option String)
    (x : LedgerEntry) (h : x.id ≠ lid) : editFn lid amt nts x = x := by
  unfold editFn
  simp [h]

theorem setBalFn_id (lid : Nat) (b : ℚ) (x : LedgerEntry) :
    (setBalFn lid b x).id = x.id := by
  unfold setBalFn
  by_cases h : x.id == lid <;> simp [h]

theorem setBalFn_customer (lid : Nat) (b : ℚ) (x : LedgerEntry) :
    (setBalFn lid b x).customer_id = x.customer_id := by
  unfold setBalFn
  by_cases h : x.id == lid <;> simp [h]

theorem setBalFn_of_ne (lid : Nat) (b : ℚ) (x : LedgerEntry)
    (h : x.id ≠ lid) : setBalFn lid b x = x := by
  unfold setBalFn
  simp [h]

theorem filter_map_comm {f : LedgerEntry → LedgerEntry}
    {p : LedgerEntry → Bool} (hpf : ∀ x, p (f x) = p x) :
    ∀ L : List LedgerEntry, (L.map f).filter p = (L.filter p).map f := by
  intro L
  induction L with
  | nil => rfl
  | cons x rest ih =>
    by_cases h : p x = true
    · simp only [List.map_cons, List.filter_cons, hpf x, h, if_true, ih]
    · have h' : p x = false := by
        cases h2 : p x
        · rfl
        · exact absurd h2 h
      simp only [List.map_cons, List.filter_cons, hpf x, h',
        Bool.false_eq_true, if_false, ih]

theorem map_id_on {f : LedgerEntry → LedgerEntry} :
    ∀ L : List LedgerEntry, (∀ x ∈ L, f x = x) → L.map f = L := by
  intro L
  induction L with
  | nil => intro _; rfl
  | cons x rest ih =>
    intro h
    simp only [List.map_cons, h x (List.mem_cons_self x rest),
      ih (fun y hy => h y (List.mem_cons_of_mem x hy))]

theorem find_id_map {f : LedgerEntry → LedgerEntry}
    (hf : ∀ x, (f x).id = x.id) (tid : Nat) :
    ∀ (L : List LedgerEntry) (e : LedgerEntry),
      L.find? (fun y => y.id == tid) = some e →
      (L.map f).find? (fun y => y.id == tid) = some (f e) := by
  intro L
  induction L with
  | nil => intro e h; cases h
  | cons x rest ih =>
    intro e h
    by_cases hx : x.id = tid
    · rw [List.find?_cons_of_pos _ (by simp [hx])] at h
      injection h with h
      subst h
      rw [List.map_cons, List.find?_cons_of_pos _ (by simp [hf, hx])]
    · rw [List.find?_cons_of_neg _ (by simp [hx])] at h
      rw [List.map_cons, List.find?_cons_of_neg _ (by simp [hf, hx])]
      exact ih e h

theorem find_of_sorted_mem :
    ∀ L : List LedgerEntry, L.Pairwise (fun a b => a.id < b.id) →
      ∀ e ∈ L, L.find? (fun y => y.id == e.id) = some e := by
  intro L
  induction L with
  | nil => intro _ e he; cases he
  | cons x rest ih =>
    intro hp e he
    obtain ⟨hlt, hp'⟩ := List.pairwise_cons.mp hp
    rcases List.mem_cons.mp he with rfl | he'
    · rw [List.find?_cons_of_pos _ (by simp)]
    · have hne : x.id ≠ e.id := ne_of_lt (hlt e he')
      rw [List.find?_cons_of_neg _ (by simp [hne])]
      exact ih hp' e he'

theorem recalcWalk_spec (cid lid : Nat) :
    ∀ (L : List LedgerEntry) (bal : ℚ),
      L.Pairwise (fun a b => a.id < b.id) →
      recalcWalk cid lid bal L = L.map (fun e =>
        if e.customer_id == cid && decide (lid < e.id) then
          { e with balance_after := bal + sumSigned (L.filter (fun x =>
              x.customer_id == cid && decide (lid < x.id) &&
              decide (x.id ≤ e.id))) }
        else e) := by
  intro L
  induction L with
  | nil => intro bal _; rfl
  | cons e rest ih =>
    intro bal hp
    obtain ⟨hlt, hp'⟩ := List.pairwise_cons.mp hp
    by_cases hc : (e.customer_id == cid && decide (lid < e.id)) = true
    · unfold recalcWalk
      rw [if_pos hc]
      dsimp only
      rw [ih (bal + signedDelta e) hp', List.map_cons]
      congr 1
      · rw [if_pos hc]
        have hrestnil : rest.filter (fun x =>
            x.customer_id == cid && decide (lid < x.id) &&
            decide (x.id ≤ e.id)) = [] := by
          apply List.filter_eq_nil_iff.mpr
          intro x hx
          have hgt : ¬ x.id ≤ e.id := not_le_of_gt (hlt x hx)
          simp [hgt]
        have hfe : ((e.customer_id == cid && decide (lid < e.id)) &&
            decide (e.id ≤ e.id)) = true := by simp [hc]
        have hfil : (e :: rest).filter (fun x =>
            x.customer_id == cid && decide (lid < x.id) &&
            decide (x.id ≤ e.id)) = [e] := by
          rw [List.filter_cons, if_pos hfe, hrestnil]
        rw [hfil]
        have : sumSigned [e] = signedDelta e := by
          simp [sumSigned]
        rw [this]
      · apply List.map_congr_left
        intro x hx
        by_cases px : (x.customer_id == cid && decide (lid < x.id)) = true
        · rw [if_pos px, if_pos px]
          have hee : ((e.customer_id == cid && decide (lid < e.id)) &&
              decide (e.id ≤ x.id)) = true := by
            simp [hc]
            exact le_of_lt (hlt x hx)
          have hfil : (e :: rest).filter (fun y =>
              y.customer_id == cid && decide (lid < y.id) &&
              decide (y.id ≤ x.id)) =
            e :: rest.filter (fun y =>
              y.customer_id == cid && decide (lid < y.id) &&
              decide (y.id ≤ x.id)) := by
            rw [List.filter_cons, if_pos hee]
          rw [hfil, sumSigned_cons]
          congr 1
          ring
        · rw [if_neg px, if_neg px]
    · unfold recalcWalk
      have hc' : (e.customer_id == cid && decide (lid < e.id)) = false := by
        cases h2 : (e.customer_id == cid && decide (lid < e.id))
        · rfl
        · exact absurd h2 hc
      rw [if_neg hc, ih bal hp', List.map_cons]
      congr 1
      · rw [if_neg hc]
      · apply List.map_congr_left
        intro x hx
        by_cases px : (x.customer_id == cid && decide (lid < x.id)) = true
        · rw [if_pos px, if_pos px]
          have hfil : (e :: rest).filter (fun y =>
              y.customer_id == cid && decide (lid < y.id) &&
              decide (y.id ≤ x.id)) =
            rest.filter (fun y =>
              y.customer_id == cid && decide (lid < y.id) &&
              decide (y.id ≤ x.id)) := by
            rw [List.filter_cons, if_neg (by simp [hc'])]
          rw [hfil]
        · rw [if_neg px, if_neg px]


/-- The pointwise effect of the recalculation walk (closed form): a row
of the customer with `id > ledger_id` gets `bal` plus the signed sum of
the customer's rows in `(ledger_id, id]`; every other row is
unchanged. -/
def walkFix (cid lid : Nat) (bal : ℚ) (M : List LedgerEntry)
    (e2 : LedgerEntry) : LedgerEntry :=
  if e2.customer_id == cid && decide (lid < e2.id) then
    { e2 with balance_after := bal + sumSigned (M.filter (fun x =>
        x.customer_id == cid && decide (lid < x.id) &&
        decide (x.id ≤ e2.id))) }
  else e2

theorem recalcWalk_spec2 (cid lid : Nat) (L : List LedgerEntry) (bal : ℚ)
    (hp : L.Pairwise (fun a b => a.id < b.id)) :
    recalcWalk cid lid bal L = L.map (walkFix cid lid bal L) :=
  recalcWalk_spec cid lid L bal hp

theorem walkFix_id (cid lid : Nat) (bal : ℚ) (M : List LedgerEntry)
    (x : LedgerEntry) : (walkFix cid lid bal M x).id = x.id := by
  unfold walkFix
  split <;> rfl

theorem walkFix_of_neg (cid lid : Nat) (bal : ℚ) (M : List LedgerEntry)
    (x : LedgerEntry)
    (h : ¬ (x.customer_id == cid && decide (lid < x.id)) = true) :
    walkFix cid lid bal M x = x := by
  unfold walkFix
  rw [if_neg h]

theorem walkFix_of_pos (cid lid : Nat) (bal : ℚ) (M : List LedgerEntry)
    (x : LedgerEntry)
    (h : (x.customer_id == cid && decide (lid < x.id)) = true) :
    walkFix cid lid bal M x =
      { x with balance_after := bal + sumSigned (M.filter (fun y =>
          y.customer_id == cid && decide (lid < y.id) &&
          decide (y.id ≤ x.id))) } := by
  unfold walkFix
  rw [if_pos h]

theorem apply_edit_spec (db : DB) (lid : Nat) (amt : ℚ) (nts : Option String)
    (e : LedgerEntry) (hs : LedgerSorted db) (he : findEntry db lid = some e) :
    (∀ e₁ ∈ db.ledger, e₁.id < lid →
      e₁ ∈ (apply_edit db lid amt nts e.customer_id).ledger) ∧
    findEntry (apply_edit db lid amt nts e.customer_id) lid =
      some { e with
             amount := amt, notes := nts,
             balance_after := balance_before_id db e.customer_id lid +
               signedAs e.entry_type amt } ∧
    (∀ e₁ ∈ db.ledger, e₁.customer_id = e.customer_id → lid < e₁.id →
      findEntry (apply_edit db lid amt nts e.customer_id) e₁.id =
        some { e₁ with
               balance_after :=
                 balance_before_id db e.customer_id lid +
                   signedAs e.entry_type amt +
                   sumSigned (db.ledger.filter (fun x =>
                     x.customer_id == e.customer_id && decide (lid < x.id) &&
                     decide (x.id ≤ e₁.id))) }) := by
  have heid : e.id = lid := by simpa using List.find?_some he
  have hs' : db.ledger.Pairwise (fun a b => a.id < b.id) := hs
  have hbb : balance_before_id
      { db with ledger := db.ledger.map (editFn lid amt nts) }
      e.customer_id lid = balance_before_id db e.customer_id lid := by
    unfold balance_before_id
    show sumSigned ((db.ledger.map (editFn lid amt nts)).filter _) = _
    rw [filter_map_comm (fun x => by
      simp only [editFn_id, editFn_customer])]
    rw [map_id_on _ (fun x hx => editFn_of_ne lid amt nts x (by
      have h2 := (List.mem_filter.mp hx).2
      simp only [Bool.and_eq_true, decide_eq_true_eq] at h2
      exact ne_of_lt h2.2))]
  have hfe : editFn lid amt nts e = { e with amount := amt, notes := nts } := by
    unfold editFn
    rw [if_pos (by simp [heid])]
  have hfind1 : (db.ledger.map (editFn lid amt nts)).find?
      (fun y => y.id == lid) = some (editFn lid amt nts e) :=
    find_id_map (editFn_id lid amt nts) lid db.ledger e he
  have hsd : signedDelta (editFn lid amt nts e) =
      signedAs e.entry_type amt := by
    rw [hfe, signedDelta_eq_signedAs]
  have hresult : (apply_edit db lid amt nts e.customer_id).ledger =
      recalcWalk e.customer_id lid
        (balance_before_id db e.customer_id lid + signedAs e.entry_type amt)
        ((db.ledger.map (editFn lid amt nts)).map (setBalFn lid
          (balance_before_id db e.customer_id lid +
            signedAs e.entry_type amt))) := by
    show (recalculate_balances
      { db with ledger := db.ledger.map (editFn lid amt nts) }
      e.customer_id lid).ledger = _
    unfold recalculate_balances findEntry
    rw [hfind1]
    dsimp only
    rw [hbb, hsd]
  set B := balance_before_id db e.customer_id lid +
    signedAs e.entry_type amt with hB
  have hsor2 : ((db.ledger.map (editFn lid amt nts)).map
      (setBalFn lid B)).Pairwise (fun a b => a.id < b.id) := by
    rw [List.pairwise_map, List.pairwise_map]
    simpa only [setBalFn_id, editFn_id] using hs'
  rw [recalcWalk_spec2 _ _ _ _ hsor2, List.map_map, List.map_map] at hresult
  set L2 := (db.ledger.map (editFn lid amt nts)).map (setBalFn lid B)
    with hL2
  have hFid : ∀ x : LedgerEntry,
      (((walkFix e.customer_id lid B L2 ∘ setBalFn lid B) ∘
        editFn lid amt nts) x).id = x.id := by
    intro x
    simp only [Function.comp_apply, walkFix_id, setBalFn_id, editFn_id]
  refine ⟨?_, ?_, ?_⟩
  · intro e₁ h1 hlt
    rw [hresult]
    apply mem_map_of_fix h1
    show walkFix e.customer_id lid B L2
      (setBalFn lid B (editFn lid amt nts e₁)) = e₁
    rw [editFn_of_ne _ _ _ _ (ne_of_lt hlt),
      setBalFn_of_ne _ _ _ (ne_of_lt hlt)]
    exact walkFix_of_neg _ _ _ _ _ (by
      intro hcontra
      simp only [Bool.and_eq_true, decide_eq_true_eq] at hcontra
      exact absurd hcontra.2 (not_lt_of_gt hlt))
  · unfold findEntry
    rw [hresult, find_id_map hFid lid db.ledger e he]
    congr 1
    show walkFix e.customer_id lid B L2
      (setBalFn lid B (editFn lid amt nts e)) = _
    rw [hfe]
    unfold setBalFn
    rw [if_pos (by simp [heid])]
    rw [walkFix_of_neg _ _ _ _ _ (by
      intro hcontra
      simp only [Bool.and_eq_true, decide_eq_true_eq] at hcontra
      simp only [heid] at hcontra
      exact absurd hcontra.2 (lt_irrefl lid))]
  · intro e₁ h1 hcust hgt
    unfold findEntry
    rw [hresult]
    have hfindA : db.ledger.find? (fun y => y.id == e₁.id) = some e₁ :=
      find_of_sorted_mem db.ledger hs' e₁ h1
    rw [find_id_map hFid e₁.id db.ledger e₁ hfindA]
    congr 1
    show walkFix e.customer_id lid B L2
      (setBalFn lid B (editFn lid amt nts e₁)) = _
    rw [editFn_of_ne _ _ _ _ (ne_of_gt hgt),
      setBalFn_of_ne _ _ _ (ne_of_gt hgt)]
    rw [walkFix_of_pos _ _ _ _ _ (by simp [hcust, hgt])]
    have hq : L2.filter (fun y => y.customer_id == e.customer_id &&
        decide (lid < y.id) && decide (y.id ≤ e₁.id)) =
      db.ledger.filter (fun y => y.customer_id == e.customer_id &&
        decide (lid < y.id) && decide (y.id ≤ e₁.id)) := by
      rw [hL2, List.map_map]
      rw [filter_map_comm (fun x => by
        simp only [Function.comp_apply, setBalFn_id, setBalFn_customer,
          editFn_id, editFn_customer])]
      apply map_id_on
      intro x hx
      have h2 := (List.mem_filter.mp hx).2
      simp only [Bool.and_eq_true, decide_eq_true_eq] at h2
      have hne : x.id ≠ lid := ne_of_gt h2.1.2
      simp only [Function.comp_apply, editFn_of_ne _ _ _ _ hne,
        setBalFn_of_ne _ _ _ hne]
    rw [hq]

/-- What C2 asserts an edit does: (1) rows with smaller id are
untouched; (2) the edited row's `balance_after` becomes the signed
prefix before it plus its signed new amount; (3) every later row of the
customer gets the cumulative signed prefix sum through itself (with the
new amount at the edited row); (4) hence, when its old `balance_after`
was the corresponding prefix sum with the old amount, a later row's
`balance_after` shifts by exactly the signed delta of the edit. -/
def EditSpec (db : DB) (lid : Nat) (e : LedgerEntry) (amt : ℚ)
    (nts : Option String) (db' : DB) : Prop :=
  (∀ e₁ ∈ db.ledger, e₁.id < lid → e₁ ∈ db'.ledger) ∧
  findEntry db' lid = some { e with
    amount := amt, notes := nts,
    balance_after := balance_before_id db e.customer_id lid +
      signedAs e.entry_type amt } ∧
  (∀ e₁ ∈ db.ledger, e₁.customer_id = e.customer_id → lid < e₁.id →
    findEntry db' e₁.id = some { e₁ with
      balance_after := balance_before_id db e.customer_id lid +
        signedAs e.entry_type amt +
        sumSigned (db.ledger.filter (fun x =>
          x.customer_id == e.customer_id && decide (lid < x.id) &&
          decide (x.id ≤ e₁.id))) }) ∧
  (∀ e₁ ∈ db.ledger, e₁.customer_id = e.customer_id → lid < e₁.id →
    e₁.balance_after = balance_before_id db e.customer_id lid +
      signedAs e.entry_type e.amount +
      sumSigned (db.ledger.filter (fun x =>
        x.customer_id == e.customer_id && decide (lid < x.id) &&
        decide (x.id ≤ e₁.id))) →
    ∃ e₂, findEntry db' e₁.id = some e₂ ∧
      e₂.balance_after = e₁.balance_after +
        (signedAs e.entry_type amt - signedAs e.entry_type e.amount))

theorem editSpec_of_apply (db : DB) (lid : Nat) (e : LedgerEntry)
    (amt : ℚ) (nts : Option String) (db' : DB)
    (hs : LedgerSorted db) (he : findEntry db lid = some e)
    (hled : db'.ledger = (apply_edit db lid amt nts e.customer_id).ledger) :
    EditSpec db lid e amt nts db' := by
  obtain ⟨h1, h2, h3⟩ := apply_edit_spec db lid amt nts e hs he
  have hfind : ∀ tid : Nat, findEntry db' tid =
      findEntry (apply_edit db lid amt nts e.customer_id) tid := by
    intro tid
    unfold findEntry
    rw [hled]
  refine ⟨?_, ?_, ?_, ?_⟩
  · intro e₁ hm hlt
    have := h1 e₁ hm hlt
    unfold findEntry at *
    rw [← hled] at this
    exact this
  · rw [hfind]; exact h2
  · intro e₁ hm hcust hgt
    rw [hfind]; exact h3 e₁ hm hcust hgt
  · intro e₁ hm hcust hgt hold
    refine ⟨_, by rw [hfind]; exact h3 e₁ hm hcust hgt, ?_⟩
    show balance_before_id db e.customer_id lid + signedAs e.entry_type amt +
        sumSigned (db.ledger.filter (fun x =>
          x.customer_id == e.customer_id && decide (lid < x.id) &&
          decide (x.id ≤ e₁.id))) =
      e₁.balance_after +
        (signedAs e.entry_type amt - signedAs e.entry_type e.amount)
    rw [hold]
    ring

theorem update_payment_entry_ok (db : DB) (lid : Nat) (amt : ℚ)
    (nts : Option String) (db' : DB)
    (hok : update_payment_entry db lid amt nts = .ok db') :
    ∃ e, findEntry db lid = some e ∧
      db' = apply_edit db lid amt nts e.customer_id := by
  cases h : findEntry db lid with
  | none =>
    unfold update_payment_entry at hok
    rw [h] at hok
    exact absurd hok (by simp)
  | some e =>
    unfold update_payment_entry at hok
    rw [h] at hok
    injection hok with hok
    exact ⟨e, rfl, hok.symm⟩

theorem update_debt_entry_ok (db : DB) (lid : Nat) (items : List ItemInput)
    (nts : Option String) (db' : DB)
    (hok : update_debt_entry db lid items nts = .ok db') :
    ∃ e, findEntry db lid = some e ∧
      db'.ledger =
        (apply_edit db lid (updateItemsTotal items) nts e.customer_id).ledger := by
  cases h : findEntry db lid with
  | none =>
    unfold update_debt_entry at hok
    rw [h] at hok
    exact absurd hok (by simp)
  | some e =>
    unfold update_debt_entry at hok
    rw [h] at hok
    injection hok with hok
    exact ⟨e, rfl, by rw [← hok]⟩

/-- C2: after `update_payment_entry` or `update_debt_entry` (whose new
amount is the item total) succeeds on an entry, the edited entry's
`balance_after` is the signed prefix before it plus its signed new
amount, every later entry of the customer is recomputed to the
cumulative signed prefix through itself (in ascending id order), and
entries with smaller id are untouched; consequently each later entry
shifts by exactly the signed delta of the edit (`EditSpec`). -/
theorem claim_C2_edit_recalculation :
    ∀ (db : DB) (lid : Nat) (e : LedgerEntry),
      LedgerSorted db → findEntry db lid = some e →
      (∀ (amt : ℚ) (nts : Option String) (db' : DB),
        update_payment_entry db lid amt nts = .ok db' →
        EditSpec db lid e amt nts db') ∧
      (∀ (items : List ItemInput) (nts : Option String) (db' : DB),
        update_debt_entry db lid items nts = .ok db' →
        EditSpec db lid e (updateItemsTotal items) nts db') := by
  intro db lid e hs he
  constructor
  · intro amt nts db' hok
    obtain ⟨e0, he0, hdb⟩ := update_payment_entry_ok db lid amt nts db' hok
    have : e0 = e := by
      rw [he] at he0
      injection he0 with h
      exact h.symm
    subst this
    exact editSpec_of_apply db lid e0 amt nts db' hs he (by rw [hdb])
  · intro items nts db' hok
    obtain ⟨e0, he0, hdb⟩ := update_debt_entry_ok db lid items nts db' hok
    have : e0 = e := by
      rw [he] at he0
      injection he0 with h
      exact h.symm
    subst this
    exact editSpec_of_apply db lid e0 (updateItemsTotal items) nts db' hs he hdb

/-- Scenario D's initial database: a $25 debt followed by a $10
payment. -/
def dbEditW : DB :=
  { customers := [{ id := 1 }],
    ledger := [{ id := 1, customer_id := 1, entry_type := .NEW_DEBT,
                 amount := 25, balance_after := 25 },
               { id := 2, customer_id := 1, entry_type := .PAYMENT,
                 amount := 10, balance_after := 15 }],
    next_ledger_id := 3 }

/-- The database after editing the debt's items to one $40 line. -/
def dbEditWAfter : DB :=
  match update_debt_entry dbEditW 1
      [{ product_name := "X", price := 40, quantity := 1 }] none with
  | .ok d => d
  | .error _ => dbEditW

/-- Witness for C2: the Scenario D edit, with the sortedness, lookup
and success hypotheses discharged at the concrete database. -/
theorem claim_C2_edit_recalculation_witness :
    EditSpec dbEditW 1
      { id := 1, customer_id := 1, entry_type := .NEW_DEBT,
        amount := 25, balance_after := 25 }
      (updateItemsTotal [{ product_name := "X", price := 40, quantity := 1 }])
      none dbEditWAfter :=
  ((claim_C2_edit_recalculation dbEditW 1
      { id := 1, customer_id := 1, entry_type := .NEW_DEBT,
        amount := 25, balance_after := 25 }
      (by decide) rfl).2)
    [{ product_name := "X", price := 40, quantity := 1 }] none
    dbEditWAfter rfl

/-! ### C4: `use_donation` -/

/-- A $100 donation; the customer's ledger holds a $10 debt and a $10
payment whose payment is VOIDED — so `get_customer_balance` is 0 while
the non-voided balance `use_donation` actually checks is 10. -/
def dbC4 : DB :=
  { customers := [{ id := 1 }],
    ledger := [{ id := 1, customer_id := 1, entry_type := .NEW_DEBT,
                 amount := 10, balance_after := 10 },
               { id := 2, customer_id := 1, entry_type := .PAYMENT,
                 amount := 10, balance_after := 0, is_voided := true }],
    donations := [{ id := 1, amount := 100 }],
    next_ledger_id := 3 }

/-- Counterexample to C4: the customer's current balance per
`get_customer_balance` is 0, so by the claim a $5 usage must fail with
the exceeds-debt error — but `use_donation` checks a balance that
EXCLUDES voided entries (here 10) and the call succeeds. -/
theorem claim_C4_counterexample :
    (use_donation dbC4 1 1 5 none 0).isOk = true ∧
      get_customer_balance dbC4 1 < 5 := by
  constructor
  · unfold use_donation
    rw [show dbC4.donations.find? (fun d => d.id == 1) =
      some { id := 1, amount := 100 } from rfl]
    dsimp only
    rw [if_neg (by norm_num [donation_amount_used, dbC4]),
      if_neg (by norm_num [unvoided_balance, sumSigned, signedDelta, dbC4,
        List.filter]),
      if_neg (by simp [get_customer, dbC4])]
    rfl
  · simp [get_customer_balance, sumSigned, signedDelta, dbC4, List.filter]

/-- The `PAYMENT` row `use_donation` inserts on success. -/
def donationPaymentEntry (db : DB) (cid : Nat) (amount : ℚ)
    (nts : Option String) (now : Nat) (d : Donation) : LedgerEntry :=
  { id := db.next_ledger_id, customer_id := cid, entry_type := .PAYMENT,
    amount := amount, balance_after := unvoided_balance db cid - amount,
    payment_method := some "CASH",
    notes := some (donationPaymentNotes (donorDisplay d.donor_name) nts),
    created_at := now }

/-- C4 as amended: `use_donation` fails when the donation is missing;
fails with the insufficient-funds error when `amount` exceeds
`amount_remaining` (= donation.amount − Σ usage.amount_used, computed
on read by `get_donation` and never stored); fails with the
exceeds-debt error when `amount` exceeds the customer's balance over
NON-VOIDED entries (`unvoided_balance` — not the all-entries
`get_customer_balance`; soft-deleted entries still count); each failure
returns an error and inserts nothing; on success it appends exactly one
`DonationUsage` row and one PAYMENT ledger entry whose notes carry the
donor's display name (donor name, or "Anonymous" if blank), in one
step. -/
theorem claim_C4_amended_donation :
    ∀ (db : DB) (did cid : Nat) (amount : ℚ) (nts : Option String)
      (now : Nat),
      (db.donations.find? (fun d => d.id == did) = none →
        use_donation db did cid amount nts now = .error .donationNotFound) ∧
      (∀ d : Donation, db.donations.find? (fun d2 => d2.id == did) = some d →
        (get_donation db did).map (fun i => i.amount_remaining) =
          some (d.amount - donation_amount_used db did) ∧
        (d.amount - donation_amount_used db did < amount →
          use_donation db did cid amount nts now = .error .insufficientFunds) ∧
        (amount ≤ d.amount - donation_amount_used db did →
          unvoided_balance db cid < amount →
          use_donation db did cid amount nts now = .error .exceedsDebt) ∧
        (∀ c : Customer, amount ≤ d.amount - donation_amount_used db did →
          amount ≤ unvoided_balance db cid →
          get_customer db cid = some c →
          use_donation db did cid amount nts now = .ok
            ({ db with
               donation_usage := db.donation_usage ++
                 [{ id := db.next_usage_id, donation_id := did,
                    customer_id := cid, amount_used := amount,
                    notes := nts }],
               ledger := db.ledger ++
                 [donationPaymentEntry db cid amount nts now d],
               next_usage_id := db.next_usage_id + 1,
               next_ledger_id := db.next_ledger_id + 1 },
             db.next_usage_id, db.next_ledger_id))) := by
  intro db did cid amount nts now
  constructor
  · intro h
    unfold use_donation
    rw [h]
  · intro d hd
    refine ⟨?_, ?_, ?_, ?_⟩
    · unfold get_donation
      rw [hd]
      rfl
    · intro hlt
      unfold use_donation
      rw [hd]
      dsimp only
      rw [if_pos hlt]
    · intro h1 h2
      unfold use_donation
      rw [hd]
      dsimp only
      rw [if_neg (not_lt.mpr h1), if_pos h2]
    · intro c h1 h2 hc
      unfold use_donation
      rw [hd]
      dsimp only
      rw [if_neg (not_lt.mpr h1), if_neg (not_lt.mpr h2),
        if_neg (by simp [hc])]
      rfl

/-- Witness for the amended C4: the successful $5 usage on `dbC4`, all
hypotheses discharged concretely. -/
theorem claim_C4_amended_donation_witness :
    use_donation dbC4 1 1 5 none 0 = .ok
      ({ dbC4 with
         donation_usage := dbC4.donation_usage ++
           [{ id := dbC4.next_usage_id, donation_id := 1,
              customer_id := 1, amount_used := 5, notes := none }],
         ledger := dbC4.ledger ++
           [donationPaymentEntry dbC4 1 5 none 0 { id := 1, amount := 100 }],
         next_usage_id := dbC4.next_usage_id + 1,
         next_ledger_id := dbC4.next_ledger_id + 1 },
       dbC4.next_usage_id, dbC4.next_ledger_id) :=
  ((claim_C4_amended_donation dbC4 1 1 5 none 0).2 { id := 1, amount := 100 }
    rfl).2.2.2 { id := 1 }
    (by norm_num [donation_amount_used, dbC4])
    (by norm_num [unvoided_balance, sumSigned, signedDelta, dbC4, List.filter])
    rfl
